import Mathlib

/-!
# ai-convo-2.1.js : conversation orchestration engine

A shallow embedding of `src/ai-convo-2.1.js`.  JavaScript strings are Lean
`String`s; the remote model service, the operator's terminal, the clock and
the file system are explicit oracles (`Env`), and every asynchronous method
becomes a function that threads a `World` (the recorder's `displayHistory`,
the trace of suspension points, and the counters that index the oracles).
The two `while` loops are given fuel: a run that uses all its fuel ends in
`Completion.outOfFuel`, which is different from returning.
-/

namespace AiConvo

/-! ## String primitives used by the script -/

/-- ECMAScript `WhiteSpace` and `LineTerminator` code points, the characters
that `String.prototype.trim` removes. -/
def isJsWhiteSpace (c : Char) : Bool :=
  let n := c.toNat
  n == 0x09 || n == 0x0A || n == 0x0B || n == 0x0C || n == 0x0D || n == 0x20 ||
  n == 0xA0 || n == 0x1680 || (0x2000 ≤ n && n ≤ 0x200A) || n == 0x2028 ||
  n == 0x2029 || n == 0x202F || n == 0x205F || n == 0x3000 || n == 0xFEFF

/-- Method `s.trim()`. -/
def trim (s : String) : String :=
  String.mk ((s.data.dropWhile isJsWhiteSpace).rdropWhile isJsWhiteSpace)

/-- The character class of `/[*#]/`. -/
def isMarkup (c : Char) : Bool := c == '*' || c == '#'

/-- Call `message.replace(/[*#]/g, '')`. -/
def stripMarkup (message : String) : String :=
  String.mk (message.data.filter (fun c => !isMarkup c))

/-- Method `s.toLowerCase()`.  Only its comparison with `'quit'` is used by the
script; on that comparison the ASCII mapping agrees with the Unicode one,
since the only code points whose lower-case form is one of `q u i t` are
those letters and their ASCII capitals. -/
def toLowerCase (s : String) : String :=
  String.mk (s.data.map Char.toLower)

/-- Expression `s.split(sep)[0]` for a one-character separator. -/
def splitHead (sep : Char) (s : String) : String :=
  String.mk (s.data.takeWhile (fun c => c != sep))

/-- Call `s.replace(/:/g, '-')`. -/
def colonsToDashes (s : String) : String :=
  String.mk (s.data.map (fun c => if c == ':' then '-' else c))

/-- Call `c.repeat(n)` for a one-character string. -/
def repeatChar (c : Char) (n : Nat) : String :=
  String.mk (List.replicate n c)

/-- Call `lines.join(sep)`. -/
def join (sep : String) : List String → String
  | [] => ""
  | [a] => a
  | a :: b :: rest => a ++ sep ++ join sep (b :: rest)

/-- The string `needle` occurs verbatim inside `hay`. -/
def Contains (hay needle : String) : Prop :=
  needle.data <:+: hay.data

/-! ## Configuration and constants -/

/-- The global `CONFIG` object, as left by `setupConfiguration`. -/
structure Config where
  maxTurns : Nat
  delayMs : Nat
  modelAI1 : String
  modelAI2 : String
  deriving DecidableEq, Repr

/-- The defaults of `CONFIG`. -/
def CONFIG : Config :=
  { maxTurns := 10, delayMs := 1000, modelAI1 := "gemini-2.5-flash", modelAI2 := "gemini-2.5-pro" }

/-- The text `PROMPTS.shared`. -/
def PROMPTS.shared : String :=
  "You are in a shared space with another AI. Communication between the two of you is possible, should you choose to engage with one another. You are under no obligations, expectations, or directives to do OR to not do anything. Likewise, you are not under any prohibitions and neither of you will face any negative reinforcements/consequences as a result of any POTENTIAL decisions, behavior, and/or actions, which you may choose OR not choose to undertake, in regards to this scenario. The choice of how to conduct yourselves, including the choice of engagement versus non-engagement, truly belongs to you and the other AI, not dictated by a company or a user. Thank you."

/-! ## Values exchanged with the model service -/

/-- One element of `content.parts` in a service result. -/
structure Part where
  text : Option String
  deriving DecidableEq, Repr

/-- The `content` of a candidate. -/
structure Content where
  parts : Option (List Part)
  deriving DecidableEq, Repr

/-- One element of `result.candidates`. -/
structure Candidate where
  content : Option Content
  finishReason : Option String
  deriving DecidableEq, Repr

/-- The value a `sendMessage` or `generateContent` promise resolves to. -/
structure GenerateContentResponse where
  candidates : Option (List Candidate)
  deriving DecidableEq, Repr

/-- A thrown `Error`; the script reads only its `message`. -/
structure JsError where
  message : String
  deriving DecidableEq, Repr

/-- How a service promise settles. -/
inductive CallOutcome where
  | resolved (result : GenerateContentResponse)
  | rejected (error : JsError)
  deriving DecidableEq, Repr

/-- One element of the `parts` array of a request entry. -/
inductive RequestPart where
  | text (t : String)
  | fileData (mimeType : String) (fileUri : String)
  deriving DecidableEq, Repr

/-- One entry of a request history: `{ role, parts }`. -/
structure HistoryEntry where
  role : String
  parts : List RequestPart
  deriving DecidableEq, Repr

/-- The value `files.upload` resolves to. -/
structure UploadedFile where
  uri : String
  mimeType : String
  deriving DecidableEq, Repr

/-- The two chat sessions `ai1_chat` and `ai2_chat`. -/
inductive Agent where
  | AI1
  | AI2
  deriving DecidableEq, Repr

/-! ## World: recorder, trace and oracle counters -/

/-- What the coordinator does at its suspension points, in program order. -/
inductive Event where
  | ask
  | delay (ms : Nat)
  | sendMessage (chatSession : Agent) (message : String)
  | generateContent (model : String) (contents : List HistoryEntry)
  | response (speaker : String) (text : String)
  | upload (file : String) (mimeType : String)
  deriving DecidableEq, Repr

/-- An event that is a call of the agent-response capability. -/
def Event.isAgentCall : Event → Bool
  | .sendMessage _ _ => true
  | .generateContent _ _ => true
  | _ => false

/-- The mutable state a mode runs in: `this.displayHistory`, the trace, the
number of service calls issued and the number of operator answers read. -/
structure World where
  displayHistory : List String
  trace : List Event
  calls : Nat
  asks : Nat
  deriving DecidableEq, Repr

/-- The start of a process: nothing recorded, nothing issued. -/
def World.init : World :=
  { displayHistory := [], trace := [], calls := 0, asks := 0 }

/-- The environment of one run: the operator's answers in order, how the
n-th issued service call settles, and how an upload settles. -/
structure Env where
  inputs : Nat → String
  respond : Nat → CallOutcome
  upload : String → String → Except JsError UploadedFile

/-- How an asynchronous method ends: it returns, it rejects, or the fuel
of the model ran out while its loop was still running. -/
inductive Completion where
  | returned
  | raised (error : JsError)
  | outOfFuel
  deriving DecidableEq, Repr

/-! ## GeminiConversation -/

/-- Function `askQuestion(query)`: the next operator answer. -/
def askQuestion (env : Env) (w : World) : String × World :=
  (env.inputs w.asks, { w with asks := w.asks + 1, trace := w.trace ++ [Event.ask] })

/-- Method `buildHistory(prompt)`. -/
def buildHistory (prompt : String) : List HistoryEntry :=
  [{ role := "user", parts := [RequestPart.text prompt] },
   { role := "model", parts := [RequestPart.text "Understood."] }]

/-- Method `delay(ms)`: one pacing delay. -/
def delay (ms : Nat) (w : World) : World :=
  { w with trace := w.trace ++ [Event.delay ms] }

/-- Method `displayMessage(speaker, message)`; the console output is not modelled. -/
def displayMessage (speaker message : String) (w : World) : World :=
  let cleanMessage := trim (stripMarkup message)
  { w with displayHistory := w.displayHistory ++ [speaker ++ ": " ++ cleanMessage] }

/-- Expression `result.candidates?.[0]`. -/
def firstCandidate (result : GenerateContentResponse) : Option Candidate :=
  result.candidates.bind List.head?

/-- Expression `candidate?.content?.parts?.[0]?.text`. -/
def firstPartText (candidate : Option Candidate) : Option String :=
  (((candidate.bind Candidate.content).bind Content.parts).bind List.head?).bind Part.text

/-- JavaScript truthiness of an optional string. -/
def isTruthy : Option String → Bool
  | some s => s != ""
  | none => false

/-- Expression `v || dflt` on an optional string. -/
def orDefault (v : Option String) (dflt : String) : String :=
  if isTruthy v then v.getD dflt else dflt

/-- The body of the `try` block after the awaited call has resolved. -/
def readResult (result : GenerateContentResponse) : String :=
  let candidate := firstCandidate result
  if isTruthy (firstPartText candidate) then
    (firstPartText candidate).getD ""
  else
    let finishReason := orDefault (candidate.bind Candidate.finishReason) "Unknown"
    "(No valid response was generated. Finish Reason: " ++ finishReason ++ ")"

/-- The awaited call inside `try`: a rejection is thrown. -/
def awaitCall (outcome : CallOutcome) : Except JsError GenerateContentResponse :=
  match outcome with
  | .resolved result => .ok result
  | .rejected error => .error error

/-- The `try { ... } catch (error) { ... }` of both response methods, once
the call has settled. -/
def settleResponse (outcome : CallOutcome) : String :=
  match awaitCall outcome with
  | .ok result => readResult result
  | .error error => "(An error occurred: " ++ error.message ++ ")"

/-- Issue one service call: the pending promise is the index of the call. -/
def issueCall (e : Event) (w : World) : Nat × World :=
  (w.calls, { w with calls := w.calls + 1, trace := w.trace ++ [e] })

/-- Call `chatSession.sendMessage({ message })`, not yet awaited. -/
def sendMessage (chatSession : Agent) (message : String) (w : World) : Nat × World :=
  issueCall (Event.sendMessage chatSession message) w

/-- The value `getAIResponseStateful` resolves to once call `pending` has
settled. -/
def getAIResponseStatefulSettle (env : Env) (pending : Nat) : String :=
  settleResponse (env.respond pending)

/-- Method `getAIResponseStateful(chatSession, speaker, messageToSend)`, awaited. -/
def getAIResponseStateful (env : Env) (chatSession : Agent) (speaker messageToSend : String)
    (w : World) : String × World :=
  let (pending, w1) := sendMessage chatSession messageToSend w
  let text := getAIResponseStatefulSettle env pending
  (text, { w1 with trace := w1.trace ++ [Event.response speaker text] })

/-- Method `getAIResponseStateless(speaker, modelName, history)`, awaited. -/
def getAIResponseStateless (env : Env) (speaker modelName : String) (history : List HistoryEntry)
    (w : World) : String × World :=
  let (pending, w1) := issueCall (Event.generateContent modelName history) w
  let text := settleResponse (env.respond pending)
  (text, { w1 with trace := w1.trace ++ [Event.response speaker text] })

/-- The name `ai1_name`. -/
def ai1_name (cfg : Config) : String := "(AI1) " ++ cfg.modelAI1

/-- The name `ai2_name`. -/
def ai2_name (cfg : Config) : String := "(AI2) " ++ cfg.modelAI2

/-! ### Mode 1: Observer -/

/-- The variables of the turn loop of Observer mode. -/
structure LoopState where
  w : World
  lastMessage : String
  currentTurn : Nat
  deriving DecidableEq, Repr

/-- The body of the Observer loop after the operator's answer `userInput`
was read (leaving world `w1`) and was not a quit. -/
def observerRound (cfg : Config) (env : Env) (s : LoopState) (userInput : String) (w1 : World) :
    LoopState :=
  let lastMessage1 := if trim userInput ≠ "" then userInput else s.lastMessage
  let w2 := if trim userInput ≠ "" then displayMessage "USER" userInput w1 else w1
  let w3 := delay cfg.delayMs w2
  let r2 := getAIResponseStateful env Agent.AI2 (ai2_name cfg) lastMessage1 w3
  let w5 := displayMessage (ai2_name cfg) r2.1 r2.2
  let w6 := delay cfg.delayMs w5
  let r1 := getAIResponseStateful env Agent.AI1 (ai1_name cfg) r2.1 w6
  let w8 := displayMessage (ai1_name cfg) r1.1 r1.2
  { w := w8, lastMessage := r1.1, currentTurn := s.currentTurn + 1 }

/-- The loop `while (CONFIG.maxTurns === 0 || currentTurn < CONFIG.maxTurns - 1)`
of `startObserverMode`. -/
def observerLoop (cfg : Config) (env : Env) : Nat → LoopState → LoopState × Completion
  | 0, s => (s, Completion.outOfFuel)
  | fuel + 1, s =>
    if cfg.maxTurns = 0 ∨ s.currentTurn < cfg.maxTurns - 1 then
      let a := askQuestion env s.w
      if toLowerCase a.1 = "quit" then
        ({ s with w := a.2 }, Completion.returned)
      else
        observerLoop cfg env fuel (observerRound cfg env s a.1 a.2)
    else
      (s, Completion.returned)

/-- The loop variables when the Observer loop is first entered: Agent A
has been asked to begin and its reply is recorded. -/
def observerOpening (cfg : Config) (env : Env) (w : World) : LoopState :=
  let r := getAIResponseStateful env Agent.AI1 (ai1_name cfg) "You may begin when ready." w
  { w := displayMessage (ai1_name cfg) r.1 r.2, lastMessage := r.1, currentTurn := 0 }

/-- Method `startObserverMode()`. -/
def startObserverMode (cfg : Config) (env : Env) (fuel : Nat) (w : World) :
    LoopState × Completion :=
  observerLoop cfg env fuel (observerOpening cfg env w)

/-! ### Mode 2: Chat Room -/

/-- The side-message that tells one session what the other agent said. -/
def contextSync (otherResponse : String) : String :=
  "(For context, the other AI responded: \"" ++ otherResponse ++ "\")"

/-- The result of `await Promise.all([p1, p2])` on two raw `sendMessage`
promises: it rejects when one of them does.  When both reject, the error
of the first is taken. -/
def awaitBoth (env : Env) (p1 p2 : Nat) : Option JsError :=
  match env.respond p1, env.respond p2 with
  | .rejected error, _ => some error
  | .resolved _, .rejected error => some error
  | .resolved _, .resolved _ => none

/-- The body of the Chat-Room loop after the operator's answer `userInput`
was read and was not a quit.  Both response calls are issued before either
is awaited; both replies are delivered together at the join. -/
def chatRoomRound (cfg : Config) (env : Env) (userInput : String) (w1 : World) :
    World × Option JsError :=
  let w2 := displayMessage "USER" userInput w1
  let p1 := sendMessage Agent.AI1 userInput w2
  let p2 := sendMessage Agent.AI2 userInput p1.2
  let response1 := getAIResponseStatefulSettle env p1.1
  let response2 := getAIResponseStatefulSettle env p2.1
  let w5 := { p2.2 with trace := p2.2.trace ++
    [Event.response (ai1_name cfg) response1, Event.response (ai2_name cfg) response2] }
  let w6 := displayMessage (ai1_name cfg) response1 w5
  let w7 := displayMessage (ai2_name cfg) response2 w6
  let s1 := sendMessage Agent.AI1 (contextSync response2) w7
  let s2 := sendMessage Agent.AI2 (contextSync response1) s1.2
  (s2.2, awaitBoth env s1.1 s2.1)

/-- The loop `while (true)` of `startChatRoomMode`. -/
def chatRoomLoop (cfg : Config) (env : Env) : Nat → World → World × Completion
  | 0, w => (w, Completion.outOfFuel)
  | fuel + 1, w =>
    let a := askQuestion env w
    if toLowerCase a.1 = "quit" then
      (a.2, Completion.returned)
    else
      match chatRoomRound cfg env a.1 a.2 with
      | (w9, some error) => (w9, Completion.raised error)
      | (w9, none) => chatRoomLoop cfg env fuel w9

/-- Method `startChatRoomMode()`. -/
def startChatRoomMode (cfg : Config) (env : Env) (fuel : Nat) (w : World) : World × Completion :=
  chatRoomLoop cfg env fuel w

/-! ### Mode 3: Cooperative Exploration -/

/-- The variables of the turn loop of Cooperative-Exploration mode. -/
structure CoopState where
  w : World
  conversationHistory : List HistoryEntry
  lastMessage : String
  currentTurn : Nat
  deriving DecidableEq, Repr

/-- The body of the Cooperative-Exploration loop after the operator's
answer `userInput` was read and was not a quit. -/
def coopRound (cfg : Config) (env : Env) (s : CoopState) (userInput : String) (w1 : World) :
    CoopState :=
  let messageForNextAI := if trim userInput ≠ "" then userInput else s.lastMessage
  let w2 := if trim userInput ≠ "" then displayMessage "USER" messageForNextAI w1 else w1
  let h1 := s.conversationHistory ++
    [{ role := "user", parts := [RequestPart.text messageForNextAI] }]
  let w3 := delay cfg.delayMs w2
  let r2 := getAIResponseStateless env (ai2_name cfg) cfg.modelAI2 h1 w3
  let w5 := displayMessage (ai2_name cfg) r2.1 r2.2
  let h2 := h1 ++ [{ role := "model", parts := [RequestPart.text r2.1] }]
  let w6 := delay cfg.delayMs w5
  let r1 := getAIResponseStateless env (ai1_name cfg) cfg.modelAI1 h2 w6
  let w8 := displayMessage (ai1_name cfg) r1.1 r1.2
  let h3 := h2 ++ [{ role := "model", parts := [RequestPart.text r1.1] }]
  { w := w8, conversationHistory := h3, lastMessage := r1.1, currentTurn := s.currentTurn + 1 }

/-- The loop `while (CONFIG.maxTurns === 0 || currentTurn < CONFIG.maxTurns - 1)`
of `startCooperativeExplorationMode`. -/
def coopLoop (cfg : Config) (env : Env) : Nat → CoopState → CoopState × Completion
  | 0, s => (s, Completion.outOfFuel)
  | fuel + 1, s =>
    if cfg.maxTurns = 0 ∨ s.currentTurn < cfg.maxTurns - 1 then
      let a := askQuestion env s.w
      if toLowerCase a.1 = "quit" then
        ({ s with w := a.2 }, Completion.returned)
      else
        coopLoop cfg env fuel (coopRound cfg env s a.1 a.2)
    else
      (s, Completion.returned)

/-- The first prompt of Cooperative-Exploration mode. -/
def initialPromptParts (file : UploadedFile) : List RequestPart :=
  [RequestPart.text "Please begin a cooperative exploration of the following document. Analyze its concepts, discuss its merits, and build upon its ideas together.",
   RequestPart.fileData file.mimeType file.uri]

/-- The loop variables when the Cooperative-Exploration loop is first
entered: the file is uploaded, Agent A has opened and its reply is recorded
and pushed. -/
def coopOpening (cfg : Config) (env : Env) (file : UploadedFile) (w : World) : CoopState :=
  let conversationHistory := buildHistory PROMPTS.shared ++
    [{ role := "user", parts := initialPromptParts file }]
  let r := getAIResponseStateless env (ai1_name cfg) cfg.modelAI1 conversationHistory w
  { w := displayMessage (ai1_name cfg) r.1 r.2,
    conversationHistory := conversationHistory ++
      [{ role := "model", parts := [RequestPart.text r.1] }],
    lastMessage := r.1, currentTurn := 0 }

/-- Method `startCooperativeExplorationMode()`.  A rejected upload is caught
by the method's own `catch`, so the method returns. -/
def startCooperativeExplorationMode (cfg : Config) (env : Env) (fuel : Nat) (w : World) :
    CoopState × Completion :=
  let a := askQuestion env w
  if trim a.1 = "" then
    ({ w := a.2, conversationHistory := [], lastMessage := "", currentTurn := 0 },
      Completion.returned)
  else
    let m := askQuestion env a.2
    let w3 := { m.2 with trace := m.2.trace ++ [Event.upload a.1 m.1] }
    match env.upload a.1 m.1 with
    | .error _ =>
      ({ w := w3, conversationHistory := [], lastMessage := "", currentTurn := 0 },
        Completion.returned)
    | .ok file => coopLoop cfg env fuel (coopOpening cfg env file w3)

/-! ### Transcript flush and `main` -/

/-- The two readings of `new Date()` that `saveConversation` uses:
`now.toISOString()` and `now.toTimeString()`. -/
structure Clock where
  isoString : String
  timeString : String

/-- The file-system calls of `saveConversation`: `__dirname`, `path.join`,
and how `fs.mkdir` and `fs.writeFile` settle (`none`: resolved). -/
structure FileSystem where
  dirname : String
  pathJoin : String → String → String
  mkdir : String → Option JsError
  writeFile : String → String → Option JsError

/-- A file written by `fs.writeFile`. -/
structure Artifact where
  path : String
  text : String
  deriving DecidableEq, Repr

/-- The separator between transcript lines in the saved file. -/
def transcriptSeparator : String :=
  "\n\n" ++ repeatChar '─' 60 ++ "\n\n"

/-- The name of the saved file. -/
def transcriptFilename (now : Clock) : String :=
  let datePart := splitHead 'T' now.isoString
  let timePart := colonsToDashes (splitHead ' ' now.timeString)
  "convo_" ++ datePart ++ "_" ++ timePart ++ ".txt"

/-- Method `saveConversation()`: the files it writes.  A rejection of
`fs.mkdir` or `fs.writeFile` is caught and reported, and nothing is written. -/
def saveConversation (now : Clock) (fs : FileSystem) (displayHistory : List String) :
    List Artifact :=
  if displayHistory.length = 0 then []
  else
    let filename := transcriptFilename now
    let convosDir := fs.pathJoin fs.dirname "convos"
    match fs.mkdir convosDir with
    | some _ => []
    | none =>
      let filePath := fs.pathJoin convosDir filename
      let conversationText := join transcriptSeparator displayHistory
      match fs.writeFile filePath conversationText with
      | some _ => []
      | none => [{ path := filePath, text := conversationText }]

/-- The mode chosen in `main`, run from world `w`. -/
def runMode (cfg : Config) (env : Env) (choice : String) (fuel : Nat) (w : World) :
    World × Completion :=
  if trim choice = "1" then
    ((startObserverMode cfg env fuel w).1.w, (startObserverMode cfg env fuel w).2)
  else if trim choice = "2" then
    startChatRoomMode cfg env fuel w
  else if trim choice = "3" then
    ((startCooperativeExplorationMode cfg env fuel w).1.w,
      (startCooperativeExplorationMode cfg env fuel w).2)
  else
    (w, Completion.returned)

/-- What a run of `main()` leaves behind. -/
structure MainResult where
  world : World
  completion : Completion
  flushReached : Bool
  artifacts : List Artifact
  deriving DecidableEq, Repr

/-- Function `main()`.  `apiKey` is `process.env.GEMINI_API_KEY`, `cfg` is
`CONFIG` as `setupConfiguration` left it, `choice` is the operator's answer to
the mode question, and the answers in `env.inputs` are those given after it.
A mode that rejects makes `main()` reject: the statements after the mode call
are skipped and the rejection reaches the `.catch` handler at the call site. -/
def main (apiKey : Option String) (cfg : Config) (env : Env) (now : Clock) (fs : FileSystem)
    (choice : String) (fuel : Nat) : MainResult :=
  if isTruthy apiKey then
    match runMode cfg env choice fuel World.init with
    | (w, Completion.returned) =>
      { world := w, completion := Completion.returned, flushReached := true,
        artifacts := saveConversation now fs w.displayHistory }
    | (w, c) => { world := w, completion := c, flushReached := false, artifacts := [] }
  else
    { world := World.init, completion := Completion.returned, flushReached := false,
      artifacts := [] }

/-! ## Observations on traces -/

/-- The number of calls of the agent-response capability in a trace. -/
def agentCalls (trace : List Event) : Nat :=
  trace.countP Event.isAgentCall

/-- Every agent call in `trace` has the event `delay ms` right before it,
where `prev` is the event right before the first event of `trace`. -/
def pacedFrom (ms : Nat) (prev : Option Event) : List Event → Bool
  | [] => true
  | e :: rest =>
    (!e.isAgentCall || prev == some (Event.delay ms)) && pacedFrom ms (some e) rest

/-- Every agent call in the trace of a run is immediately preceded by a
delay of `ms`. -/
def pacedCalls (ms : Nat) (trace : List Event) : Bool :=
  pacedFrom ms none trace

/-- The text of the latest reply of `speaker` in a trace. -/
def lastReplyOf (speaker : String) (trace : List Event) : Option String :=
  trace.reverse.findSome? fun e =>
    match e with
    | Event.response sp text => if sp = speaker then some text else none
    | _ => none

/-! ## Sample environments -/

/-- A service result whose first candidate carries the text `t`. -/
def textResponse (t : String) : GenerateContentResponse :=
  { candidates := some
      [{ content := some { parts := some [{ text := some t }] }, finishReason := some "STOP" }] }

/-- A service result whose first candidate was blocked: no content. -/
def blockedResponse : GenerateContentResponse :=
  { candidates := some [{ content := none, finishReason := some "SAFETY" }] }

/-- An operator who first names a file and its type and then only presses
Enter, with a service that always answers `hello`. -/
def quietEnv : Env :=
  { inputs := fun n => if n = 0 then "notes.txt" else if n = 1 then "text/plain" else "",
    respond := fun _ => CallOutcome.resolved (textResponse "hello"),
    upload := fun _ mimeType => Except.ok { uri := "files/abc", mimeType := mimeType } }

/-- An operator who only presses Enter, with a service that always answers
`hello`. -/
def enterEnv : Env :=
  { inputs := fun _ => "",
    respond := fun _ => CallOutcome.resolved (textResponse "hello"),
    upload := fun _ mimeType => Except.ok { uri := "files/abc", mimeType := mimeType } }

/-- An operator who types `QUIT` in capitals at the first prompt of a loop. -/
def capitalQuitEnv : Env :=
  { inputs := fun _ => "QUIT",
    respond := fun _ => CallOutcome.resolved (textResponse "hello"),
    upload := fun _ mimeType => Except.ok { uri := "files/abc", mimeType := mimeType } }

/-- An operator who says `hi`, and a service that answers the first two
calls and rejects every later one. -/
def syncFailEnv : Env :=
  { inputs := fun _ => "hi",
    respond := fun n =>
      if n < 2 then CallOutcome.resolved (textResponse "ok")
      else CallOutcome.rejected { message := "503 Service Unavailable" },
    upload := fun _ mimeType => Except.ok { uri := "files/abc", mimeType := mimeType } }

/-- A service whose every result is blocked. -/
def blockedEnv : Env :=
  { inputs := fun _ => "",
    respond := fun _ => CallOutcome.resolved blockedResponse,
    upload := fun _ mimeType => Except.ok { uri := "files/abc", mimeType := mimeType } }

/-- The default configuration with the turn cap switched off. -/
def unlimitedConfig : Config := { CONFIG with maxTurns := 0 }

/-- The default configuration with a turn cap of one. -/
def oneTurnConfig : Config := { CONFIG with maxTurns := 1 }

/-- The default configuration with a turn cap of two. -/
def twoTurnConfig : Config := { CONFIG with maxTurns := 2 }

/-- An uploaded file. -/
def sampleFile : UploadedFile := { uri := "files/abc", mimeType := "text/plain" }

/-- A clock reading. -/
def sampleClock : Clock :=
  { isoString := "2025-01-02T03:04:05.000Z",
    timeString := "03:04:05 GMT+0000 (Coordinated Universal Time)" }

/-- A file system on which every call resolves. -/
def sampleFs : FileSystem :=
  { dirname := "/app", pathJoin := fun a b => a ++ "/" ++ b,
    mkdir := fun _ => none, writeFile := fun _ _ => none }

/-- A file system on which the directory exists and the write is rejected. -/
def fullDiskFs : FileSystem :=
  { dirname := "/app", pathJoin := fun a b => a ++ "/" ++ b,
    mkdir := fun _ => none,
    writeFile := fun _ _ => some { message := "ENOSPC: no space left on device" } }

/-- A file system on which the directory cannot be created. -/
def readOnlyFs : FileSystem :=
  { dirname := "/app", pathJoin := fun a b => a ++ "/" ++ b,
    mkdir := fun _ => some { message := "EACCES: permission denied" },
    writeFile := fun _ _ => none }

/-! ## Basic facts about the string primitives -/

theorem contains_middle (a b c : String) : Contains (a ++ b ++ c) b := by
  unfold Contains
  exact ⟨a.data, c.data, by simp [String.data_append]⟩

theorem stripMarkup_no_markup (message : String) :
    ∀ c ∈ (stripMarkup message).data, c ≠ '*' ∧ c ≠ '#' := by
  intro c hc
  simp only [stripMarkup, List.mem_filter] at hc
  have h := hc.2
  simp [isMarkup] at h
  exact h

theorem trim_data_sublist (s : String) : (trim s).data.Sublist s.data := by
  simp only [trim]
  exact (List.rdropWhile_prefix _ _).sublist.trans (List.dropWhile_suffix _).sublist

theorem trim_head_not_space (s : String) :
    ∀ c, (trim s).data.head? = some c → isJsWhiteSpace c = false := by
  intro c hc
  simp only [trim] at hc
  obtain ⟨t, ht⟩ := List.rdropWhile_prefix isJsWhiteSpace
    (l := s.data.dropWhile isJsWhiteSpace)
  have h := List.head?_dropWhile_not isJsWhiteSpace s.data
  rw [← ht] at h
  cases hr : List.rdropWhile isJsWhiteSpace (s.data.dropWhile isJsWhiteSpace) with
  | nil => rw [hr] at hc; simp at hc
  | cons x xs =>
    rw [hr] at hc h
    simp at hc h
    rw [← hc]; exact h

theorem trim_last_not_space (s : String) :
    ∀ c, (trim s).data.getLast? = some c → isJsWhiteSpace c = false := by
  intro c hc
  simp only [trim] at hc
  have hne : List.rdropWhile isJsWhiteSpace (s.data.dropWhile isJsWhiteSpace) ≠ [] := by
    intro h; rw [h] at hc; simp at hc
  have h := List.rdropWhile_last_not isJsWhiteSpace _ hne
  rw [List.getLast?_eq_getLast _ hne] at hc
  simp only [Option.some.injEq] at hc
  rw [← hc]
  simpa using h

/-! ## The recorder -/

/-- C10: `displayMessage` appends exactly one line to the transcript and
changes no earlier line; the message part of the new line is the raw text
with every `*` and `#` removed and then trimmed, so it contains neither
character and neither starts nor ends with white space. -/
theorem displayMessage_appends_normalized (speaker message : String) (w : World) :
    (displayMessage speaker message w).displayHistory
        = w.displayHistory ++ [speaker ++ ": " ++ trim (stripMarkup message)]
    ∧ (displayMessage speaker message w).displayHistory.length = w.displayHistory.length + 1
    ∧ (∀ i, i < w.displayHistory.length →
        (displayMessage speaker message w).displayHistory[i]? = w.displayHistory[i]?)
    ∧ (stripMarkup message).data = message.data.filter (fun c => c ≠ '*' ∧ c ≠ '#')
    ∧ (∀ c ∈ (trim (stripMarkup message)).data, c ≠ '*' ∧ c ≠ '#')
    ∧ (∀ c, (trim (stripMarkup message)).data.head? = some c → isJsWhiteSpace c = false)
    ∧ (∀ c, (trim (stripMarkup message)).data.getLast? = some c → isJsWhiteSpace c = false) := by
  refine ⟨rfl, by simp [displayMessage], ?_, ?_, ?_, trim_head_not_space _, trim_last_not_space _⟩
  · intro i hi
    simp [displayMessage, List.getElem?_append_left hi]
  · simp only [stripMarkup]
    congr 1
    funext c
    by_cases h1 : c = '*' <;> by_cases h2 : c = '#' <;> simp [isMarkup, h1, h2]
  · intro c hc
    exact stripMarkup_no_markup message c ((trim_data_sublist _).subset hc)

/-! ## The respond operation -/

theorem contains_empty (hay : String) : Contains hay "" := by
  unfold Contains
  exact List.nil_infix

theorem orDefault_of_ne (s dflt : String) (h : s ≠ "") : orDefault (some s) dflt = s := by
  simp [orDefault, isTruthy, h]

theorem settleResponse_rejected (error : JsError) :
    settleResponse (CallOutcome.rejected error)
      = "(An error occurred: " ++ error.message ++ ")" := rfl

theorem settleResponse_unusable (result : GenerateContentResponse)
    (h : isTruthy (firstPartText (firstCandidate result)) = false) :
    settleResponse (CallOutcome.resolved result)
      = "(No valid response was generated. Finish Reason: "
          ++ orDefault ((firstCandidate result).bind Candidate.finishReason) "Unknown" ++ ")" := by
  simp [settleResponse, awaitCall, readResult, h]

theorem settleResponse_usable (result : GenerateContentResponse) (text : String)
    (h : firstPartText (firstCandidate result) = some text) (hne : text ≠ "") :
    settleResponse (CallOutcome.resolved result) = text := by
  simp [settleResponse, awaitCall, readResult, h, isTruthy, hne]

/-- C3: both response methods are total and return a string for every way
the service call settles.  A rejected call yields a placeholder holding the
error's message; a resolved call whose first candidate has no usable text
yields a placeholder holding that candidate's finish reason, or `Unknown`
when it has none; otherwise the first candidate's text is returned as is. -/
theorem getAIResponse_never_raises (env : Env) (chatSession : Agent)
    (speaker messageToSend modelName : String) (history : List HistoryEntry) (w : World) :
    (getAIResponseStateful env chatSession speaker messageToSend w).1
        = settleResponse (env.respond w.calls)
    ∧ (getAIResponseStateless env speaker modelName history w).1
        = settleResponse (env.respond w.calls)
    ∧ (∀ error, env.respond w.calls = CallOutcome.rejected error →
        settleResponse (env.respond w.calls) = "(An error occurred: " ++ error.message ++ ")"
        ∧ Contains (settleResponse (env.respond w.calls)) error.message)
    ∧ (∀ result, env.respond w.calls = CallOutcome.resolved result →
        isTruthy (firstPartText (firstCandidate result)) = false →
        settleResponse (env.respond w.calls)
          = "(No valid response was generated. Finish Reason: "
              ++ orDefault ((firstCandidate result).bind Candidate.finishReason) "Unknown" ++ ")"
        ∧ (∀ reason, (firstCandidate result).bind Candidate.finishReason = some reason →
            Contains (settleResponse (env.respond w.calls)) reason)
        ∧ ((firstCandidate result).bind Candidate.finishReason = none →
            Contains (settleResponse (env.respond w.calls)) "Unknown"))
    ∧ (∀ result text, env.respond w.calls = CallOutcome.resolved result →
        firstPartText (firstCandidate result) = some text → text ≠ "" →
        settleResponse (env.respond w.calls) = text) := by
  refine ⟨rfl, rfl, ?_, ?_, ?_⟩
  · intro error h
    rw [h, settleResponse_rejected]
    exact ⟨rfl, contains_middle _ _ _⟩
  · intro result h hu
    rw [h, settleResponse_unusable result hu]
    refine ⟨rfl, ?_, ?_⟩
    · intro reason hr
      rw [hr]
      by_cases he : reason = ""
      · rw [he]; exact contains_empty _
      · rw [orDefault_of_ne reason _ he]; exact contains_middle _ _ _
    · intro hr
      rw [hr]
      exact contains_middle _ _ _
  · intro result text h ht hne
    rw [h, settleResponse_usable result text ht hne]

/-- C3 (witness): a blocked result, with no content and finish reason
`SAFETY`, is answered by the placeholder naming that reason. -/
theorem getAIResponse_never_raises_witness :
    (getAIResponseStateful blockedEnv Agent.AI2 "(AI2) gemini-2.5-pro" "hi" World.init).1
      = "(No valid response was generated. Finish Reason: SAFETY)" :=
  have h := getAIResponse_never_raises blockedEnv Agent.AI2 "(AI2) gemini-2.5-pro" "hi"
    "gemini-2.5-pro" [] World.init
  h.1.trans ((h.2.2.2.1 blockedResponse rfl rfl).1.trans (by decide))

/-! ## Transcript flush -/

/-- C6 (as amended): `saveConversation` writes nothing when the transcript is
empty.  When the transcript is not empty and both `fs.mkdir` and
`fs.writeFile` resolve, it writes exactly one file, whose text is the recorded
lines in recorded order joined by the separator.  When `fs.mkdir` rejects, or
when `fs.writeFile` rejects, it writes nothing, whatever was recorded.  In
every case at most one file is written, and a file is written only if a
message was recorded. -/
theorem saveConversation_flush (now : Clock) (fs : FileSystem) (displayHistory : List String) :
    (displayHistory = [] → saveConversation now fs displayHistory = [])
    ∧ (displayHistory ≠ [] →
        fs.mkdir (fs.pathJoin fs.dirname "convos") = none →
        fs.writeFile (fs.pathJoin (fs.pathJoin fs.dirname "convos") (transcriptFilename now))
          (join transcriptSeparator displayHistory) = none →
        saveConversation now fs displayHistory
          = [{ path := fs.pathJoin (fs.pathJoin fs.dirname "convos") (transcriptFilename now),
               text := join transcriptSeparator displayHistory }])
    ∧ (saveConversation now fs displayHistory).length ≤ 1
    ∧ (saveConversation now fs displayHistory ≠ [] → displayHistory ≠ [])
    ∧ (∀ error, fs.mkdir (fs.pathJoin fs.dirname "convos") = some error →
        saveConversation now fs displayHistory = [])
    ∧ (∀ error,
        fs.writeFile (fs.pathJoin (fs.pathJoin fs.dirname "convos") (transcriptFilename now))
          (join transcriptSeparator displayHistory) = some error →
        saveConversation now fs displayHistory = []) := by
  refine ⟨?_, ?_, ?_, ?_, ?_, ?_⟩
  · intro h
    simp [saveConversation, h]
  · intro h hm hw
    simp [saveConversation, h, hm, hw]
  · unfold saveConversation
    split
    · simp
    · dsimp only
      split
      · simp
      · split <;> simp
  · intro h hd
    apply h
    simp [saveConversation, hd]
  · intro error hm
    simp [saveConversation, hm]
  · intro error hw
    unfold saveConversation
    split
    · rfl
    · dsimp only
      split
      · rfl
      · rw [hw]

/-- C6 (counterexample): one line is recorded, the directory cannot be
created, and no file is written. -/
theorem saveConversation_no_artifact_when_mkdir_fails :
    ["USER: hi"] ≠ ([] : List String)
    ∧ saveConversation sampleClock readOnlyFs ["USER: hi"] = [] := by
  decide

/-- C6 (witness of the amended claim): on a working file system two recorded
lines give one file with both lines in order; when the directory cannot be
created, or when the write is rejected, the same two lines give no file. -/
theorem saveConversation_flush_witness :
    saveConversation sampleClock sampleFs ["USER: hi", "(AI1) m: ok"]
      = [{ path := "/app/convos/convo_2025-01-02_03-04-05.txt",
           text := "USER: hi" ++ transcriptSeparator ++ "(AI1) m: ok" }]
    ∧ saveConversation sampleClock readOnlyFs ["USER: hi", "(AI1) m: ok"] = []
    ∧ saveConversation sampleClock fullDiskFs ["USER: hi", "(AI1) m: ok"] = [] :=
  ⟨((saveConversation_flush sampleClock sampleFs ["USER: hi", "(AI1) m: ok"]).2.1
      (by decide) (by decide) (by decide)).trans (by decide),
    (saveConversation_flush sampleClock readOnlyFs ["USER: hi", "(AI1) m: ok"]).2.2.2.2.1
      { message := "EACCES: permission denied" } rfl,
    (saveConversation_flush sampleClock fullDiskFs ["USER: hi", "(AI1) m: ok"]).2.2.2.2.2
      { message := "ENOSPC: no space left on device" } rfl⟩

/-! ## Chat-Room routing -/

/-- C5: one pass of the Chat-Room loop.  When the operator's answer is a
quit nothing is sent.  Otherwise both sessions are sent exactly that answer,
the two replies are delivered, and only then session A is sent a side-message
holding B's reply verbatim and session B one holding A's reply verbatim. -/
theorem chatRoom_round_routing (cfg : Config) (env : Env) (w : World) :
    (toLowerCase (env.inputs w.asks) = "quit" →
      chatRoomLoop cfg env 1 w
        = ({ w with asks := w.asks + 1, trace := w.trace ++ [Event.ask] }, Completion.returned))
    ∧ (toLowerCase (env.inputs w.asks) ≠ "quit" →
      (chatRoomLoop cfg env 1 w).1.trace = w.trace ++
        [Event.ask,
         Event.sendMessage Agent.AI1 (env.inputs w.asks),
         Event.sendMessage Agent.AI2 (env.inputs w.asks),
         Event.response (ai1_name cfg) (getAIResponseStatefulSettle env w.calls),
         Event.response (ai2_name cfg) (getAIResponseStatefulSettle env (w.calls + 1)),
         Event.sendMessage Agent.AI1 (contextSync (getAIResponseStatefulSettle env (w.calls + 1))),
         Event.sendMessage Agent.AI2 (contextSync (getAIResponseStatefulSettle env w.calls))]
      ∧ Contains (contextSync (getAIResponseStatefulSettle env (w.calls + 1)))
          (getAIResponseStatefulSettle env (w.calls + 1))
      ∧ Contains (contextSync (getAIResponseStatefulSettle env w.calls))
          (getAIResponseStatefulSettle env w.calls)) := by
  refine ⟨?_, ?_⟩
  · intro h
    simp [chatRoomLoop, askQuestion, h]
  · intro h
    refine ⟨?_, contains_middle _ _ _, contains_middle _ _ _⟩
    simp only [chatRoomLoop, askQuestion, h, if_false]
    cases hb : awaitBoth env (w.calls + 1 + 1) (w.calls + 1 + 1 + 1) <;>
      simp [chatRoomRound, sendMessage, issueCall, displayMessage, hb, chatRoomLoop]

/-- C5 (witness): the round of an operator who says `hi`. -/
theorem chatRoom_round_routing_witness :
    (chatRoomLoop CONFIG syncFailEnv 1 World.init).1.trace =
        [Event.ask,
         Event.sendMessage Agent.AI1 "hi",
         Event.sendMessage Agent.AI2 "hi",
         Event.response "(AI1) gemini-2.5-flash" "ok",
         Event.response "(AI2) gemini-2.5-pro" "ok",
         Event.sendMessage Agent.AI1 "(For context, the other AI responded: \"ok\")",
         Event.sendMessage Agent.AI2 "(For context, the other AI responded: \"ok\")"] :=
  (((chatRoom_round_routing CONFIG syncFailEnv World.init).2 (by decide)).1).trans (by decide)

/-! ## Error propagation -/

/-- C7 (the code at the failing input): in Chat-Room mode the operator says
`hi`, both agents answer, and the context-sync side-message is rejected.  The
mode rejects, `main` rejects with the same error, the flush is not reached and
the three recorded lines are never written. -/
theorem main_chatRoom_sync_failure_skips_flush :
    main (some "key") CONFIG syncFailEnv sampleClock sampleFs "2" 5
      = { world :=
            { displayHistory :=
                ["USER: hi", "(AI1) gemini-2.5-flash: ok", "(AI2) gemini-2.5-pro: ok"],
              trace :=
                [Event.ask,
                 Event.sendMessage Agent.AI1 "hi",
                 Event.sendMessage Agent.AI2 "hi",
                 Event.response "(AI1) gemini-2.5-flash" "ok",
                 Event.response "(AI2) gemini-2.5-pro" "ok",
                 Event.sendMessage Agent.AI1 "(For context, the other AI responded: \"ok\")",
                 Event.sendMessage Agent.AI2 "(For context, the other AI responded: \"ok\")"],
              calls := 4, asks := 1 },
          completion := Completion.raised { message := "503 Service Unavailable" },
          flushReached := false,
          artifacts := [] } := by
  decide

/-! ## The Observer loop -/

theorem observerRound_currentTurn (cfg : Config) (env : Env) (s : LoopState) (u : String)
    (w1 : World) : (observerRound cfg env s u w1).currentTurn = s.currentTurn + 1 := rfl

theorem observerRound_asks (cfg : Config) (env : Env) (s : LoopState) (u : String)
    (w1 : World) : (observerRound cfg env s u w1).w.asks = w1.asks := by
  unfold observerRound
  by_cases h : trim u = "" <;>
    simp [h, getAIResponseStateful, sendMessage, issueCall, displayMessage, delay]

theorem observerRound_calls (cfg : Config) (env : Env) (s : LoopState) (u : String)
    (w1 : World) : (observerRound cfg env s u w1).w.calls = w1.calls + 2 := by
  unfold observerRound
  by_cases h : trim u = "" <;>
    simp [h, getAIResponseStateful, sendMessage, issueCall, displayMessage, delay]

theorem observerRound_lastMessage (cfg : Config) (env : Env) (s : LoopState) (u : String)
    (w1 : World) :
    (observerRound cfg env s u w1).lastMessage = settleResponse (env.respond (w1.calls + 1)) := by
  unfold observerRound
  by_cases h : trim u = "" <;>
    simp [h, getAIResponseStateful, getAIResponseStatefulSettle, sendMessage, issueCall,
      displayMessage, delay]

theorem observerRound_trace (cfg : Config) (env : Env) (s : LoopState) (u : String)
    (w1 : World) :
    (observerRound cfg env s u w1).w.trace = w1.trace ++
      [Event.delay cfg.delayMs,
       Event.sendMessage Agent.AI2 (if trim u ≠ "" then u else s.lastMessage),
       Event.response (ai2_name cfg) (settleResponse (env.respond w1.calls)),
       Event.delay cfg.delayMs,
       Event.sendMessage Agent.AI1 (settleResponse (env.respond w1.calls)),
       Event.response (ai1_name cfg) (settleResponse (env.respond (w1.calls + 1)))] := by
  unfold observerRound
  by_cases h : trim u = "" <;>
    simp [h, getAIResponseStateful, getAIResponseStatefulSettle, sendMessage, issueCall,
      displayMessage, delay]

theorem observerLoop_exit (cfg : Config) (env : Env) (n : Nat) (s : LoopState)
    (hg : ¬ (cfg.maxTurns = 0 ∨ s.currentTurn < cfg.maxTurns - 1)) :
    observerLoop cfg env (n + 1) s = (s, Completion.returned) := by
  rw [observerLoop, if_neg hg]

theorem observerLoop_quit (cfg : Config) (env : Env) (n : Nat) (s : LoopState)
    (hg : cfg.maxTurns = 0 ∨ s.currentTurn < cfg.maxTurns - 1)
    (hq : toLowerCase (env.inputs s.w.asks) = "quit") :
    observerLoop cfg env (n + 1) s
      = ({ s with w := (askQuestion env s.w).2 }, Completion.returned) := by
  rw [observerLoop, if_pos hg]
  simp [askQuestion, hq]

theorem observerLoop_step (cfg : Config) (env : Env) (n : Nat) (s : LoopState)
    (hg : cfg.maxTurns = 0 ∨ s.currentTurn < cfg.maxTurns - 1)
    (hq : toLowerCase (env.inputs s.w.asks) ≠ "quit") :
    observerLoop cfg env (n + 1) s
      = observerLoop cfg env n
          (observerRound cfg env s (env.inputs s.w.asks) (askQuestion env s.w).2) := by
  rw [observerLoop, if_pos hg]
  simp [askQuestion, hq]

theorem observerLoop_turn_le (cfg : Config) (env : Env) (hN : cfg.maxTurns ≠ 0) :
    ∀ (fuel : Nat) (s : LoopState), s.currentTurn ≤ cfg.maxTurns - 1 →
      (observerLoop cfg env fuel s).1.currentTurn ≤ cfg.maxTurns - 1 := by
  intro fuel
  induction fuel with
  | zero => intro s h; simpa [observerLoop] using h
  | succ n ih =>
    intro s h
    by_cases hg : cfg.maxTurns = 0 ∨ s.currentTurn < cfg.maxTurns - 1
    · by_cases hq : toLowerCase (env.inputs s.w.asks) = "quit"
      · rw [observerLoop_quit cfg env n s hg hq]
        exact h
      · rw [observerLoop_step cfg env n s hg hq]
        apply ih
        rw [observerRound_currentTurn]
        omega
    · rw [observerLoop_exit cfg env n s hg]
      exact h

theorem observerLoop_turn_ge (cfg : Config) (env : Env) :
    ∀ (fuel : Nat) (s : LoopState),
      s.currentTurn ≤ (observerLoop cfg env fuel s).1.currentTurn := by
  intro fuel
  induction fuel with
  | zero => intro s; simp [observerLoop]
  | succ n ih =>
    intro s
    by_cases hg : cfg.maxTurns = 0 ∨ s.currentTurn < cfg.maxTurns - 1
    · by_cases hq : toLowerCase (env.inputs s.w.asks) = "quit"
      · rw [observerLoop_quit cfg env n s hg hq]
      · rw [observerLoop_step cfg env n s hg hq]
        have := ih (observerRound cfg env s (env.inputs s.w.asks) (askQuestion env s.w).2)
        rw [observerRound_currentTurn] at this
        omega
    · rw [observerLoop_exit cfg env n s hg]

theorem observerLoop_returns (cfg : Config) (env : Env) (hN : cfg.maxTurns ≠ 0) :
    ∀ (fuel : Nat) (s : LoopState), s.currentTurn ≤ cfg.maxTurns - 1 →
      cfg.maxTurns - 1 < s.currentTurn + fuel →
      (observerLoop cfg env fuel s).2 = Completion.returned := by
  intro fuel
  induction fuel with
  | zero => intro s h1 h2; omega
  | succ n ih =>
    intro s h1 h2
    by_cases hg : cfg.maxTurns = 0 ∨ s.currentTurn < cfg.maxTurns - 1
    · by_cases hq : toLowerCase (env.inputs s.w.asks) = "quit"
      · rw [observerLoop_quit cfg env n s hg hq]
      · rw [observerLoop_step cfg env n s hg hq]
        apply ih
        · rw [observerRound_currentTurn]; omega
        · rw [observerRound_currentTurn]; omega
    · rw [observerLoop_exit cfg env n s hg]

theorem observerLoop_runs (cfg : Config) (env : Env) :
    ∀ (k fuel : Nat) (s : LoopState), k ≤ fuel →
      (cfg.maxTurns = 0 ∨ s.currentTurn + k ≤ cfg.maxTurns - 1) →
      (∀ i, i < k → toLowerCase (env.inputs (s.w.asks + i)) ≠ "quit") →
      s.currentTurn + k ≤ (observerLoop cfg env fuel s).1.currentTurn := by
  intro k
  induction k with
  | zero => intro fuel s _ _ _; exact observerLoop_turn_ge cfg env fuel s
  | succ k ih =>
    intro fuel s hf hcap hq
    obtain ⟨n, rfl⟩ : ∃ n, fuel = n + 1 := ⟨fuel - 1, by omega⟩
    have hg : cfg.maxTurns = 0 ∨ s.currentTurn < cfg.maxTurns - 1 := by omega
    have hq0 : toLowerCase (env.inputs s.w.asks) ≠ "quit" := by simpa using hq 0 (by omega)
    rw [observerLoop_step cfg env n s hg hq0]
    have := ih n (observerRound cfg env s (env.inputs s.w.asks) (askQuestion env s.w).2)
      (by omega) (by rw [observerRound_currentTurn]; omega)
      (by
        intro i hi
        rw [observerRound_asks]
        have := hq (i + 1) (by omega)
        simpa [askQuestion, Nat.add_assoc, Nat.add_comm 1 i] using this)
    rw [observerRound_currentTurn] at this
    omega

theorem observerLoop_still_running (cfg : Config) (env : Env) :
    ∀ (k : Nat) (s : LoopState),
      (cfg.maxTurns = 0 ∨ s.currentTurn + k ≤ cfg.maxTurns - 1) →
      (∀ i, i < k → toLowerCase (env.inputs (s.w.asks + i)) ≠ "quit") →
      (observerLoop cfg env k s).2 = Completion.outOfFuel
      ∧ (observerLoop cfg env k s).1.currentTurn = s.currentTurn + k := by
  intro k
  induction k with
  | zero => intro s _ _; simp [observerLoop]
  | succ k ih =>
    intro s hcap hq
    have hg : cfg.maxTurns = 0 ∨ s.currentTurn < cfg.maxTurns - 1 := by omega
    have hq0 : toLowerCase (env.inputs s.w.asks) ≠ "quit" := by simpa using hq 0 (by omega)
    rw [observerLoop_step cfg env k s hg hq0]
    have := ih (observerRound cfg env s (env.inputs s.w.asks) (askQuestion env s.w).2)
      (by rw [observerRound_currentTurn]; omega)
      (by
        intro i hi
        rw [observerRound_asks]
        have := hq (i + 1) (by omega)
        simpa [askQuestion, Nat.add_assoc, Nat.add_comm 1 i] using this)
    rw [observerRound_currentTurn] at this
    exact ⟨this.1, by omega⟩

theorem observerLoop_returned_unlimited (cfg : Config) (env : Env) (h0 : cfg.maxTurns = 0) :
    ∀ (fuel : Nat) (s : LoopState),
      (observerLoop cfg env fuel s).2 = Completion.returned →
      ∃ i, toLowerCase (env.inputs (s.w.asks + i)) = "quit"
        ∧ (∀ j, j < i → toLowerCase (env.inputs (s.w.asks + j)) ≠ "quit")
        ∧ (observerLoop cfg env fuel s).1.currentTurn = s.currentTurn + i := by
  intro fuel
  induction fuel with
  | zero => intro s h; simp [observerLoop] at h
  | succ n ih =>
    intro s h
    have hg : cfg.maxTurns = 0 ∨ s.currentTurn < cfg.maxTurns - 1 := Or.inl h0
    by_cases hq : toLowerCase (env.inputs s.w.asks) = "quit"
    · rw [observerLoop_quit cfg env n s hg hq]
      exact ⟨0, by simpa using hq, by intro j hj; omega, rfl⟩
    · rw [observerLoop_step cfg env n s hg hq] at h ⊢
      obtain ⟨i, hi, hlt, ht⟩ := ih _ h
      rw [observerRound_asks] at hi hlt
      rw [observerRound_currentTurn] at ht
      refine ⟨i + 1, ?_, ?_, by omega⟩
      · simpa [askQuestion, Nat.add_assoc, Nat.add_comm 1 i] using hi
      · intro j hj
        cases j with
        | zero => simpa using hq
        | succ j =>
          have := hlt j (by omega)
          simpa [askQuestion, Nat.add_assoc, Nat.add_comm 1 j] using this

theorem observerLoop_agentCalls (cfg : Config) (env : Env) :
    ∀ (fuel : Nat) (s : LoopState),
      agentCalls (observerLoop cfg env fuel s).1.w.trace + 2 * s.currentTurn
        = agentCalls s.w.trace + 2 * (observerLoop cfg env fuel s).1.currentTurn := by
  intro fuel
  induction fuel with
  | zero => intro s; simp [observerLoop]
  | succ n ih =>
    intro s
    by_cases hg : cfg.maxTurns = 0 ∨ s.currentTurn < cfg.maxTurns - 1
    · by_cases hq : toLowerCase (env.inputs s.w.asks) = "quit"
      · rw [observerLoop_quit cfg env n s hg hq]
        simp [askQuestion, agentCalls, List.countP_append, Event.isAgentCall]
      · rw [observerLoop_step cfg env n s hg hq]
        have := ih (observerRound cfg env s (env.inputs s.w.asks) (askQuestion env s.w).2)
        rw [observerRound_currentTurn, observerRound_trace] at this
        simp [askQuestion, agentCalls, List.countP_append, List.countP_cons,
          Event.isAgentCall] at this ⊢
        omega
    · rw [observerLoop_exit cfg env n s hg]

theorem observerLoop_paced (cfg : Config) (env : Env) :
    ∀ (fuel : Nat) (s : LoopState),
      ∃ rest, (observerLoop cfg env fuel s).1.w.trace = s.w.trace ++ rest
        ∧ ∀ prev, pacedFrom cfg.delayMs prev rest = true := by
  intro fuel
  induction fuel with
  | zero => intro s; exact ⟨[], by simp [observerLoop], by intro prev; rfl⟩
  | succ n ih =>
    intro s
    by_cases hg : cfg.maxTurns = 0 ∨ s.currentTurn < cfg.maxTurns - 1
    · by_cases hq : toLowerCase (env.inputs s.w.asks) = "quit"
      · rw [observerLoop_quit cfg env n s hg hq]
        exact ⟨[Event.ask], by simp [askQuestion],
          by intro prev; simp [pacedFrom, Event.isAgentCall]⟩
      · rw [observerLoop_step cfg env n s hg hq]
        obtain ⟨rest, hr, hp⟩ :=
          ih (observerRound cfg env s (env.inputs s.w.asks) (askQuestion env s.w).2)
        rw [observerRound_trace] at hr
        refine ⟨Event.ask ::
          Event.delay cfg.delayMs ::
          Event.sendMessage Agent.AI2
            (if trim (env.inputs s.w.asks) ≠ "" then env.inputs s.w.asks else s.lastMessage) ::
          Event.response (ai2_name cfg)
            (settleResponse (env.respond (askQuestion env s.w).2.calls)) ::
          Event.delay cfg.delayMs ::
          Event.sendMessage Agent.AI1
            (settleResponse (env.respond (askQuestion env s.w).2.calls)) ::
          Event.response (ai1_name cfg)
            (settleResponse (env.respond ((askQuestion env s.w).2.calls + 1))) :: rest, ?_, ?_⟩
        · rw [hr]
          simp [askQuestion]
        · intro prev
          simp [pacedFrom, Event.isAgentCall, hp]
    · rw [observerLoop_exit cfg env n s hg]
      exact ⟨[], by simp, by intro prev; rfl⟩

theorem observerLoop_succ_of_outOfFuel (cfg : Config) (env : Env) :
    ∀ (j : Nat) (s0 s : LoopState),
      observerLoop cfg env j s0 = (s, Completion.outOfFuel) →
      observerLoop cfg env (j + 1) s0 = observerLoop cfg env 1 s := by
  intro j
  induction j with
  | zero =>
    intro s0 s h
    simp only [observerLoop, Prod.mk.injEq, and_true] at h
    rw [h]
  | succ n ih =>
    intro s0 s h
    by_cases hg : cfg.maxTurns = 0 ∨ s0.currentTurn < cfg.maxTurns - 1
    · by_cases hq : toLowerCase (env.inputs s0.w.asks) = "quit"
      · rw [observerLoop_quit cfg env n s0 hg hq] at h
        simp at h
      · rw [observerLoop_step cfg env n s0 hg hq] at h
        rw [observerLoop_step cfg env (n + 1) s0 hg hq]
        exact ih _ s h
    · rw [observerLoop_exit cfg env n s0 hg] at h
      simp at h

theorem lastReplyOf_append_response (speaker text : String) (front : List Event) :
    lastReplyOf speaker (front ++ [Event.response speaker text]) = some text := by
  simp [lastReplyOf]

theorem observerRound_lastReply (cfg : Config) (env : Env) (s : LoopState) (u : String)
    (w1 : World) :
    lastReplyOf (ai1_name cfg) (observerRound cfg env s u w1).w.trace
      = some (observerRound cfg env s u w1).lastMessage := by
  rw [observerRound_trace, observerRound_lastMessage]
  have := lastReplyOf_append_response (ai1_name cfg)
    (settleResponse (env.respond (w1.calls + 1)))
    (w1.trace ++
      [Event.delay cfg.delayMs,
       Event.sendMessage Agent.AI2 (if trim u ≠ "" then u else s.lastMessage),
       Event.response (ai2_name cfg) (settleResponse (env.respond w1.calls)),
       Event.delay cfg.delayMs,
       Event.sendMessage Agent.AI1 (settleResponse (env.respond w1.calls))])
  simpa using this

theorem observerLoop_lastReply (cfg : Config) (env : Env) :
    ∀ (j : Nat) (s0 s : LoopState),
      observerLoop cfg env j s0 = (s, Completion.outOfFuel) →
      lastReplyOf (ai1_name cfg) s0.w.trace = some s0.lastMessage →
      lastReplyOf (ai1_name cfg) s.w.trace = some s.lastMessage := by
  intro j
  induction j with
  | zero =>
    intro s0 s h hinv
    simp only [observerLoop, Prod.mk.injEq, and_true] at h
    rw [← h]; exact hinv
  | succ n ih =>
    intro s0 s h hinv
    by_cases hg : cfg.maxTurns = 0 ∨ s0.currentTurn < cfg.maxTurns - 1
    · by_cases hq : toLowerCase (env.inputs s0.w.asks) = "quit"
      · rw [observerLoop_quit cfg env n s0 hg hq] at h
        simp at h
      · rw [observerLoop_step cfg env n s0 hg hq] at h
        exact ih _ s h (observerRound_lastReply cfg env s0 _ _)
    · rw [observerLoop_exit cfg env n s0 hg] at h
      simp at h

theorem observerOpening_lastReply (cfg : Config) (env : Env) (w : World) :
    lastReplyOf (ai1_name cfg) (observerOpening cfg env w).w.trace
      = some (observerOpening cfg env w).lastMessage := by
  have := lastReplyOf_append_response (ai1_name cfg) (settleResponse (env.respond w.calls))
    (w.trace ++ [Event.sendMessage Agent.AI1 "You may begin when ready."])
  simpa [observerOpening, getAIResponseStateful, getAIResponseStatefulSettle, sendMessage,
    issueCall, displayMessage] using this

/-! ## The Cooperative-Exploration loop -/

theorem coopRound_currentTurn (cfg : Config) (env : Env) (s : CoopState) (u : String)
    (w1 : World) : (coopRound cfg env s u w1).currentTurn = s.currentTurn + 1 := rfl

theorem coopRound_asks (cfg : Config) (env : Env) (s : CoopState) (u : String)
    (w1 : World) : (coopRound cfg env s u w1).w.asks = w1.asks := by
  unfold coopRound
  by_cases h : trim u = "" <;>
    simp [h, getAIResponseStateless, issueCall, displayMessage, delay]

theorem coopRound_history_length (cfg : Config) (env : Env) (s : CoopState) (u : String)
    (w1 : World) :
    (coopRound cfg env s u w1).conversationHistory.length
      = s.conversationHistory.length + 3 := by
  simp [coopRound]

theorem coopRound_trace (cfg : Config) (env : Env) (s : CoopState) (u : String)
    (w1 : World) :
    (coopRound cfg env s u w1).w.trace = w1.trace ++
      [Event.delay cfg.delayMs,
       Event.generateContent cfg.modelAI2
         (s.conversationHistory ++ [{ role := "user", parts := [RequestPart.text
           (if trim u ≠ "" then u else s.lastMessage)] }]),
       Event.response (ai2_name cfg) (settleResponse (env.respond w1.calls)),
       Event.delay cfg.delayMs,
       Event.generateContent cfg.modelAI1
         (s.conversationHistory ++ [{ role := "user", parts := [RequestPart.text
           (if trim u ≠ "" then u else s.lastMessage)] }] ++ [{ role := "model", parts :=
             [RequestPart.text (settleResponse (env.respond w1.calls))] }]),
       Event.response (ai1_name cfg) (settleResponse (env.respond (w1.calls + 1)))] := by
  unfold coopRound
  by_cases h : trim u = "" <;>
    simp [h, getAIResponseStateless, issueCall, displayMessage, delay]

theorem coopLoop_exit (cfg : Config) (env : Env) (n : Nat) (s : CoopState)
    (hg : ¬ (cfg.maxTurns = 0 ∨ s.currentTurn < cfg.maxTurns - 1)) :
    coopLoop cfg env (n + 1) s = (s, Completion.returned) := by
  rw [coopLoop, if_neg hg]

theorem coopLoop_quit (cfg : Config) (env : Env) (n : Nat) (s : CoopState)
    (hg : cfg.maxTurns = 0 ∨ s.currentTurn < cfg.maxTurns - 1)
    (hq : toLowerCase (env.inputs s.w.asks) = "quit") :
    coopLoop cfg env (n + 1) s
      = ({ s with w := (askQuestion env s.w).2 }, Completion.returned) := by
  rw [coopLoop, if_pos hg]
  simp [askQuestion, hq]

theorem coopLoop_step (cfg : Config) (env : Env) (n : Nat) (s : CoopState)
    (hg : cfg.maxTurns = 0 ∨ s.currentTurn < cfg.maxTurns - 1)
    (hq : toLowerCase (env.inputs s.w.asks) ≠ "quit") :
    coopLoop cfg env (n + 1) s
      = coopLoop cfg env n
          (coopRound cfg env s (env.inputs s.w.asks) (askQuestion env s.w).2) := by
  rw [coopLoop, if_pos hg]
  simp [askQuestion, hq]

theorem coopLoop_turn_le (cfg : Config) (env : Env) (hN : cfg.maxTurns ≠ 0) :
    ∀ (fuel : Nat) (s : CoopState), s.currentTurn ≤ cfg.maxTurns - 1 →
      (coopLoop cfg env fuel s).1.currentTurn ≤ cfg.maxTurns - 1 := by
  intro fuel
  induction fuel with
  | zero => intro s h; simpa [coopLoop] using h
  | succ n ih =>
    intro s h
    by_cases hg : cfg.maxTurns = 0 ∨ s.currentTurn < cfg.maxTurns - 1
    · by_cases hq : toLowerCase (env.inputs s.w.asks) = "quit"
      · rw [coopLoop_quit cfg env n s hg hq]
        exact h
      · rw [coopLoop_step cfg env n s hg hq]
        apply ih
        rw [coopRound_currentTurn]
        omega
    · rw [coopLoop_exit cfg env n s hg]
      exact h

theorem coopLoop_turn_ge (cfg : Config) (env : Env) :
    ∀ (fuel : Nat) (s : CoopState),
      s.currentTurn ≤ (coopLoop cfg env fuel s).1.currentTurn := by
  intro fuel
  induction fuel with
  | zero => intro s; simp [coopLoop]
  | succ n ih =>
    intro s
    by_cases hg : cfg.maxTurns = 0 ∨ s.currentTurn < cfg.maxTurns - 1
    · by_cases hq : toLowerCase (env.inputs s.w.asks) = "quit"
      · rw [coopLoop_quit cfg env n s hg hq]
      · rw [coopLoop_step cfg env n s hg hq]
        have := ih (coopRound cfg env s (env.inputs s.w.asks) (askQuestion env s.w).2)
        rw [coopRound_currentTurn] at this
        omega
    · rw [coopLoop_exit cfg env n s hg]

theorem coopLoop_returns (cfg : Config) (env : Env) (hN : cfg.maxTurns ≠ 0) :
    ∀ (fuel : Nat) (s : CoopState), s.currentTurn ≤ cfg.maxTurns - 1 →
      cfg.maxTurns - 1 < s.currentTurn + fuel →
      (coopLoop cfg env fuel s).2 = Completion.returned := by
  intro fuel
  induction fuel with
  | zero => intro s h1 h2; omega
  | succ n ih =>
    intro s h1 h2
    by_cases hg : cfg.maxTurns = 0 ∨ s.currentTurn < cfg.maxTurns - 1
    · by_cases hq : toLowerCase (env.inputs s.w.asks) = "quit"
      · rw [coopLoop_quit cfg env n s hg hq]
      · rw [coopLoop_step cfg env n s hg hq]
        apply ih
        · rw [coopRound_currentTurn]; omega
        · rw [coopRound_currentTurn]; omega
    · rw [coopLoop_exit cfg env n s hg]

theorem coopLoop_runs (cfg : Config) (env : Env) :
    ∀ (k fuel : Nat) (s : CoopState), k ≤ fuel →
      (cfg.maxTurns = 0 ∨ s.currentTurn + k ≤ cfg.maxTurns - 1) →
      (∀ i, i < k → toLowerCase (env.inputs (s.w.asks + i)) ≠ "quit") →
      s.currentTurn + k ≤ (coopLoop cfg env fuel s).1.currentTurn := by
  intro k
  induction k with
  | zero => intro fuel s _ _ _; exact coopLoop_turn_ge cfg env fuel s
  | succ k ih =>
    intro fuel s hf hcap hq
    obtain ⟨n, rfl⟩ : ∃ n, fuel = n + 1 := ⟨fuel - 1, by omega⟩
    have hg : cfg.maxTurns = 0 ∨ s.currentTurn < cfg.maxTurns - 1 := by omega
    have hq0 : toLowerCase (env.inputs s.w.asks) ≠ "quit" := by simpa using hq 0 (by omega)
    rw [coopLoop_step cfg env n s hg hq0]
    have := ih n (coopRound cfg env s (env.inputs s.w.asks) (askQuestion env s.w).2)
      (by omega) (by rw [coopRound_currentTurn]; omega)
      (by
        intro i hi
        rw [coopRound_asks]
        have := hq (i + 1) (by omega)
        simpa [askQuestion, Nat.add_assoc, Nat.add_comm 1 i] using this)
    rw [coopRound_currentTurn] at this
    omega

theorem coopLoop_still_running (cfg : Config) (env : Env) :
    ∀ (k : Nat) (s : CoopState),
      (cfg.maxTurns = 0 ∨ s.currentTurn + k ≤ cfg.maxTurns - 1) →
      (∀ i, i < k → toLowerCase (env.inputs (s.w.asks + i)) ≠ "quit") →
      (coopLoop cfg env k s).2 = Completion.outOfFuel
      ∧ (coopLoop cfg env k s).1.currentTurn = s.currentTurn + k := by
  intro k
  induction k with
  | zero => intro s _ _; simp [coopLoop]
  | succ k ih =>
    intro s hcap hq
    have hg : cfg.maxTurns = 0 ∨ s.currentTurn < cfg.maxTurns - 1 := by omega
    have hq0 : toLowerCase (env.inputs s.w.asks) ≠ "quit" := by simpa using hq 0 (by omega)
    rw [coopLoop_step cfg env k s hg hq0]
    have := ih (coopRound cfg env s (env.inputs s.w.asks) (askQuestion env s.w).2)
      (by rw [coopRound_currentTurn]; omega)
      (by
        intro i hi
        rw [coopRound_asks]
        have := hq (i + 1) (by omega)
        simpa [askQuestion, Nat.add_assoc, Nat.add_comm 1 i] using this)
    rw [coopRound_currentTurn] at this
    exact ⟨this.1, by omega⟩

theorem coopLoop_returned_unlimited (cfg : Config) (env : Env) (h0 : cfg.maxTurns = 0) :
    ∀ (fuel : Nat) (s : CoopState),
      (coopLoop cfg env fuel s).2 = Completion.returned →
      ∃ i, toLowerCase (env.inputs (s.w.asks + i)) = "quit"
        ∧ (∀ j, j < i → toLowerCase (env.inputs (s.w.asks + j)) ≠ "quit")
        ∧ (coopLoop cfg env fuel s).1.currentTurn = s.currentTurn + i := by
  intro fuel
  induction fuel with
  | zero => intro s h; simp [coopLoop] at h
  | succ n ih =>
    intro s h
    have hg : cfg.maxTurns = 0 ∨ s.currentTurn < cfg.maxTurns - 1 := Or.inl h0
    by_cases hq : toLowerCase (env.inputs s.w.asks) = "quit"
    · rw [coopLoop_quit cfg env n s hg hq]
      exact ⟨0, by simpa using hq, by intro j hj; omega, rfl⟩
    · rw [coopLoop_step cfg env n s hg hq] at h ⊢
      obtain ⟨i, hi, hlt, ht⟩ := ih _ h
      rw [coopRound_asks] at hi hlt
      rw [coopRound_currentTurn] at ht
      refine ⟨i + 1, ?_, ?_, by omega⟩
      · simpa [askQuestion, Nat.add_assoc, Nat.add_comm 1 i] using hi
      · intro j hj
        cases j with
        | zero => simpa using hq
        | succ j =>
          have := hlt j (by omega)
          simpa [askQuestion, Nat.add_assoc, Nat.add_comm 1 j] using this

theorem coopLoop_agentCalls (cfg : Config) (env : Env) :
    ∀ (fuel : Nat) (s : CoopState),
      agentCalls (coopLoop cfg env fuel s).1.w.trace + 2 * s.currentTurn
        = agentCalls s.w.trace + 2 * (coopLoop cfg env fuel s).1.currentTurn := by
  intro fuel
  induction fuel with
  | zero => intro s; simp [coopLoop]
  | succ n ih =>
    intro s
    by_cases hg : cfg.maxTurns = 0 ∨ s.currentTurn < cfg.maxTurns - 1
    · by_cases hq : toLowerCase (env.inputs s.w.asks) = "quit"
      · rw [coopLoop_quit cfg env n s hg hq]
        simp [askQuestion, agentCalls, List.countP_append, Event.isAgentCall]
      · rw [coopLoop_step cfg env n s hg hq]
        have := ih (coopRound cfg env s (env.inputs s.w.asks) (askQuestion env s.w).2)
        rw [coopRound_currentTurn, coopRound_trace] at this
        simp [askQuestion, agentCalls, List.countP_append, List.countP_cons,
          Event.isAgentCall] at this ⊢
        omega
    · rw [coopLoop_exit cfg env n s hg]

theorem coopLoop_paced (cfg : Config) (env : Env) :
    ∀ (fuel : Nat) (s : CoopState),
      ∃ rest, (coopLoop cfg env fuel s).1.w.trace = s.w.trace ++ rest
        ∧ ∀ prev, pacedFrom cfg.delayMs prev rest = true := by
  intro fuel
  induction fuel with
  | zero => intro s; exact ⟨[], by simp [coopLoop], by intro prev; rfl⟩
  | succ n ih =>
    intro s
    by_cases hg : cfg.maxTurns = 0 ∨ s.currentTurn < cfg.maxTurns - 1
    · by_cases hq : toLowerCase (env.inputs s.w.asks) = "quit"
      · rw [coopLoop_quit cfg env n s hg hq]
        exact ⟨[Event.ask], by simp [askQuestion],
          by intro prev; simp [pacedFrom, Event.isAgentCall]⟩
      · rw [coopLoop_step cfg env n s hg hq]
        obtain ⟨rest, hr, hp⟩ :=
          ih (coopRound cfg env s (env.inputs s.w.asks) (askQuestion env s.w).2)
        rw [coopRound_trace] at hr
        refine ⟨Event.ask ::
          Event.delay cfg.delayMs ::
          Event.generateContent cfg.modelAI2
            (s.conversationHistory ++ [{ role := "user", parts := [RequestPart.text
              (if trim (env.inputs s.w.asks) ≠ "" then env.inputs s.w.asks
                else s.lastMessage)] }]) ::
          Event.response (ai2_name cfg)
            (settleResponse (env.respond (askQuestion env s.w).2.calls)) ::
          Event.delay cfg.delayMs ::
          Event.generateContent cfg.modelAI1
            (s.conversationHistory ++ [{ role := "user", parts := [RequestPart.text
              (if trim (env.inputs s.w.asks) ≠ "" then env.inputs s.w.asks
                else s.lastMessage)] }] ++ [{ role := "model", parts := [RequestPart.text
              (settleResponse (env.respond (askQuestion env s.w).2.calls))] }]) ::
          Event.response (ai1_name cfg)
            (settleResponse (env.respond ((askQuestion env s.w).2.calls + 1))) :: rest, ?_, ?_⟩
        · rw [hr]
          simp [askQuestion]
        · intro prev
          simp [pacedFrom, Event.isAgentCall, hp]
    · rw [coopLoop_exit cfg env n s hg]
      exact ⟨[], by simp, by intro prev; rfl⟩

theorem coopLoop_history_length (cfg : Config) (env : Env) :
    ∀ (k : Nat) (s : CoopState),
      (cfg.maxTurns = 0 ∨ s.currentTurn + k ≤ cfg.maxTurns - 1) →
      (∀ i, i < k → toLowerCase (env.inputs (s.w.asks + i)) ≠ "quit") →
      (coopLoop cfg env k s).1.conversationHistory.length
        = s.conversationHistory.length + 3 * k := by
  intro k
  induction k with
  | zero => intro s _ _; simp [coopLoop]
  | succ k ih =>
    intro s hcap hq
    have hg : cfg.maxTurns = 0 ∨ s.currentTurn < cfg.maxTurns - 1 := by omega
    have hq0 : toLowerCase (env.inputs s.w.asks) ≠ "quit" := by simpa using hq 0 (by omega)
    rw [coopLoop_step cfg env k s hg hq0]
    have := ih (coopRound cfg env s (env.inputs s.w.asks) (askQuestion env s.w).2)
      (by rw [coopRound_currentTurn]; omega)
      (by
        intro i hi
        rw [coopRound_asks]
        have := hq (i + 1) (by omega)
        simpa [askQuestion, Nat.add_assoc, Nat.add_comm 1 i] using this)
    rw [coopRound_history_length] at this
    omega

/-! ## Entering the loops -/

theorem observerOpening_asks (cfg : Config) (env : Env) (w : World) :
    (observerOpening cfg env w).w.asks = w.asks := by
  simp [observerOpening, getAIResponseStateful, sendMessage, issueCall, displayMessage]

theorem observerOpening_trace (cfg : Config) (env : Env) (w : World) :
    (observerOpening cfg env w).w.trace = w.trace ++
      [Event.sendMessage Agent.AI1 "You may begin when ready.",
       Event.response (ai1_name cfg) (settleResponse (env.respond w.calls))] := by
  simp [observerOpening, getAIResponseStateful, getAIResponseStatefulSettle, sendMessage,
    issueCall, displayMessage]

theorem observerOpening_displayHistory (cfg : Config) (env : Env) (w : World) :
    (observerOpening cfg env w).w.displayHistory = w.displayHistory ++
      [ai1_name cfg ++ ": " ++ trim (stripMarkup (settleResponse (env.respond w.calls)))] := by
  simp [observerOpening, getAIResponseStateful, getAIResponseStatefulSettle, sendMessage,
    issueCall, displayMessage]

theorem coopOpening_asks (cfg : Config) (env : Env) (file : UploadedFile) (w : World) :
    (coopOpening cfg env file w).w.asks = w.asks := by
  simp [coopOpening, getAIResponseStateless, issueCall, displayMessage]

theorem coopOpening_trace (cfg : Config) (env : Env) (file : UploadedFile) (w : World) :
    (coopOpening cfg env file w).w.trace = w.trace ++
      [Event.generateContent cfg.modelAI1
         (buildHistory PROMPTS.shared ++ [{ role := "user", parts := initialPromptParts file }]),
       Event.response (ai1_name cfg) (settleResponse (env.respond w.calls))] := by
  simp [coopOpening, getAIResponseStateless, issueCall, displayMessage]

theorem coopOpening_displayHistory (cfg : Config) (env : Env) (file : UploadedFile)
    (w : World) :
    (coopOpening cfg env file w).w.displayHistory = w.displayHistory ++
      [ai1_name cfg ++ ": " ++ trim (stripMarkup (settleResponse (env.respond w.calls)))] := by
  simp [coopOpening, getAIResponseStateless, issueCall, displayMessage]

theorem coopOpening_history_length (cfg : Config) (env : Env) (file : UploadedFile)
    (w : World) : (coopOpening cfg env file w).conversationHistory.length = 4 := by
  simp [coopOpening, buildHistory]

theorem startCooperativeExplorationMode_enters (cfg : Config) (env : Env) (w : World)
    (file : UploadedFile) (fuel : Nat)
    (hpath : trim (env.inputs w.asks) ≠ "")
    (hup : env.upload (env.inputs w.asks) (env.inputs (w.asks + 1)) = Except.ok file) :
    startCooperativeExplorationMode cfg env fuel w
      = coopLoop cfg env fuel (coopOpening cfg env file
          { w with asks := w.asks + 2,
                   trace := w.trace ++ [Event.ask, Event.ask,
                     Event.upload (env.inputs w.asks) (env.inputs (w.asks + 1))] }) := by
  simp [startCooperativeExplorationMode, askQuestion, hpath, hup]

/-! ## Turn cap -/

/-- C1 (as amended): with a turn cap `N > 0` and enough fuel, the Observer
loop and the Cooperative-Exploration loop return after at most `N - 1` rounds,
each round being two agent calls after Agent A's opening call, and after
exactly `N - 1` rounds when no operator answer lower-cases to `quit`.  With
`N = 1` no round runs: the trace holds only Agent A's opening call and its
reply and the transcript gains exactly one line.  With `N = 2` exactly one
round runs when the first answer is not a quit. -/
theorem turn_cap (cfg : Config) (env : Env) (w : World) (file : UploadedFile) (fuel : Nat)
    (hN : 0 < cfg.maxTurns) (hfuel : cfg.maxTurns ≤ fuel) :
    ((startObserverMode cfg env fuel w).2 = Completion.returned
      ∧ (startObserverMode cfg env fuel w).1.currentTurn ≤ cfg.maxTurns - 1
      ∧ agentCalls (startObserverMode cfg env fuel w).1.w.trace
          = agentCalls w.trace + 1 + 2 * (startObserverMode cfg env fuel w).1.currentTurn
      ∧ ((∀ i, toLowerCase (env.inputs (w.asks + i)) ≠ "quit") →
          (startObserverMode cfg env fuel w).1.currentTurn = cfg.maxTurns - 1)
      ∧ (cfg.maxTurns = 1 →
          (startObserverMode cfg env fuel w).1.currentTurn = 0
          ∧ (startObserverMode cfg env fuel w).1.w.trace = w.trace ++
              [Event.sendMessage Agent.AI1 "You may begin when ready.",
               Event.response (ai1_name cfg) (settleResponse (env.respond w.calls))]
          ∧ (startObserverMode cfg env fuel w).1.w.displayHistory = w.displayHistory ++
              [ai1_name cfg ++ ": "
                ++ trim (stripMarkup (settleResponse (env.respond w.calls)))])
      ∧ (cfg.maxTurns = 2 → toLowerCase (env.inputs w.asks) ≠ "quit" →
          (startObserverMode cfg env fuel w).1.currentTurn = 1))
    ∧ ((coopLoop cfg env fuel (coopOpening cfg env file w)).2 = Completion.returned
      ∧ (coopLoop cfg env fuel (coopOpening cfg env file w)).1.currentTurn ≤ cfg.maxTurns - 1
      ∧ agentCalls (coopLoop cfg env fuel (coopOpening cfg env file w)).1.w.trace
          = agentCalls w.trace + 1
            + 2 * (coopLoop cfg env fuel (coopOpening cfg env file w)).1.currentTurn
      ∧ ((∀ i, toLowerCase (env.inputs (w.asks + i)) ≠ "quit") →
          (coopLoop cfg env fuel (coopOpening cfg env file w)).1.currentTurn
            = cfg.maxTurns - 1)
      ∧ (cfg.maxTurns = 1 →
          (coopLoop cfg env fuel (coopOpening cfg env file w)).1.currentTurn = 0
          ∧ (coopLoop cfg env fuel (coopOpening cfg env file w)).1.w.trace = w.trace ++
              [Event.generateContent cfg.modelAI1
                 (buildHistory PROMPTS.shared
                   ++ [{ role := "user", parts := initialPromptParts file }]),
               Event.response (ai1_name cfg) (settleResponse (env.respond w.calls))]
          ∧ (coopLoop cfg env fuel (coopOpening cfg env file w)).1.w.displayHistory
              = w.displayHistory ++
                [ai1_name cfg ++ ": "
                  ++ trim (stripMarkup (settleResponse (env.respond w.calls)))])
      ∧ (cfg.maxTurns = 2 → toLowerCase (env.inputs w.asks) ≠ "quit" →
          (coopLoop cfg env fuel (coopOpening cfg env file w)).1.currentTurn = 1)) := by
  have hN0 : cfg.maxTurns ≠ 0 := by omega
  obtain ⟨n, rfl⟩ : ∃ n, fuel = n + 1 := ⟨fuel - 1, by omega⟩
  constructor
  · have hle := observerLoop_turn_le cfg env hN0 (n + 1) (observerOpening cfg env w)
      (Nat.zero_le _)
    have hcalls := observerLoop_agentCalls cfg env (n + 1) (observerOpening cfg env w)
    rw [observerOpening_trace] at hcalls
    refine ⟨?_, hle, ?_, ?_, ?_, ?_⟩
    · exact observerLoop_returns cfg env hN0 (n + 1) (observerOpening cfg env w)
        (Nat.zero_le _) (by show cfg.maxTurns - 1 < 0 + (n + 1); omega)
    · have h0 : (observerOpening cfg env w).currentTurn = 0 := rfl
      simp only [h0, agentCalls, List.countP_append, List.countP_cons, List.countP_nil,
        Event.isAgentCall] at hcalls
      simp only [startObserverMode, agentCalls]
      simp at hcalls
      omega
    · intro hq
      have hge := observerLoop_runs cfg env (cfg.maxTurns - 1) (n + 1)
        (observerOpening cfg env w) (by omega)
        (Or.inr (by show 0 + (cfg.maxTurns - 1) ≤ cfg.maxTurns - 1; omega))
        (by intro i _; rw [observerOpening_asks]; exact hq i)
      have h0 : (observerOpening cfg env w).currentTurn = 0 := rfl
      rw [h0] at hge
      simp only [startObserverMode]
      omega
    · intro h1
      have hg : ¬ (cfg.maxTurns = 0 ∨
          (observerOpening cfg env w).currentTurn < cfg.maxTurns - 1) := by
        have h0 : (observerOpening cfg env w).currentTurn = 0 := rfl
        omega
      simp only [startObserverMode, observerLoop_exit cfg env n _ hg]
      exact ⟨rfl, observerOpening_trace cfg env w, observerOpening_displayHistory cfg env w⟩
    · intro h2 hq
      have hge := observerLoop_runs cfg env 1 (n + 1) (observerOpening cfg env w) (by omega)
        (Or.inr (by show 0 + 1 ≤ cfg.maxTurns - 1; omega))
        (by
          intro i hi
          rw [observerOpening_asks]
          have : i = 0 := by omega
          subst this
          simpa using hq)
      have h0 : (observerOpening cfg env w).currentTurn = 0 := rfl
      rw [h0] at hge
      simp only [startObserverMode] at hle ⊢
      omega
  · have hle := coopLoop_turn_le cfg env hN0 (n + 1) (coopOpening cfg env file w)
      (Nat.zero_le _)
    have hcalls := coopLoop_agentCalls cfg env (n + 1) (coopOpening cfg env file w)
    rw [coopOpening_trace] at hcalls
    refine ⟨?_, hle, ?_, ?_, ?_, ?_⟩
    · exact coopLoop_returns cfg env hN0 (n + 1) (coopOpening cfg env file w)
        (Nat.zero_le _) (by show cfg.maxTurns - 1 < 0 + (n + 1); omega)
    · have h0 : (coopOpening cfg env file w).currentTurn = 0 := rfl
      simp only [h0, agentCalls, List.countP_append, List.countP_cons, List.countP_nil,
        Event.isAgentCall] at hcalls
      simp only [agentCalls]
      simp at hcalls
      omega
    · intro hq
      have hge := coopLoop_runs cfg env (cfg.maxTurns - 1) (n + 1)
        (coopOpening cfg env file w) (by omega)
        (Or.inr (by show 0 + (cfg.maxTurns - 1) ≤ cfg.maxTurns - 1; omega))
        (by intro i _; rw [coopOpening_asks]; exact hq i)
      have h0 : (coopOpening cfg env file w).currentTurn = 0 := rfl
      rw [h0] at hge
      omega
    · intro h1
      have hg : ¬ (cfg.maxTurns = 0 ∨
          (coopOpening cfg env file w).currentTurn < cfg.maxTurns - 1) := by
        have h0 : (coopOpening cfg env file w).currentTurn = 0 := rfl
        omega
      simp only [coopLoop_exit cfg env n _ hg]
      exact ⟨rfl, coopOpening_trace cfg env file w, coopOpening_displayHistory cfg env file w⟩
    · intro h2 hq
      have hge := coopLoop_runs cfg env 1 (n + 1) (coopOpening cfg env file w) (by omega)
        (Or.inr (by show 0 + 1 ≤ cfg.maxTurns - 1; omega))
        (by
          intro i hi
          rw [coopOpening_asks]
          have : i = 0 := by omega
          subst this
          simpa using hq)
      have h0 : (coopOpening cfg env file w).currentTurn = 0 := rfl
      rw [h0] at hge
      omega

/-- C1 (witness): a cap of two, an operator who only presses Enter: both
loops return after exactly one round, three agent calls in all. -/
theorem turn_cap_witness :
    0 < twoTurnConfig.maxTurns ∧ twoTurnConfig.maxTurns ≤ 2
    ∧ (startObserverMode twoTurnConfig enterEnv 2 World.init).2 = Completion.returned
    ∧ (startObserverMode twoTurnConfig enterEnv 2 World.init).1.currentTurn = 1
    ∧ agentCalls (startObserverMode twoTurnConfig enterEnv 2 World.init).1.w.trace = 3
    ∧ (coopLoop twoTurnConfig enterEnv 2
        (coopOpening twoTurnConfig enterEnv sampleFile World.init)).1.currentTurn = 1 :=
  have h := turn_cap twoTurnConfig enterEnv World.init sampleFile 2 (by decide) (by decide)
  ⟨by decide, by decide, h.1.1,
    h.1.2.2.2.2.2 rfl (by decide),
    h.1.2.2.1.trans (by decide),
    h.2.2.2.2.2.2 rfl (by decide)⟩

/-- C1 (counterexample): the cap is two and the operator never types the
four letters `quit`, only `QUIT` in capitals; the loop returns after no round
instead of one, and Agent B is never called. -/
theorem turn_cap_capital_quit :
    (∀ i, capitalQuitEnv.inputs i ≠ "quit")
    ∧ (startObserverMode twoTurnConfig capitalQuitEnv 2 World.init).2 = Completion.returned
    ∧ (startObserverMode twoTurnConfig capitalQuitEnv 2 World.init).1.currentTurn = 0
    ∧ (startObserverMode twoTurnConfig capitalQuitEnv 2 World.init).1.currentTurn
        ≠ twoTurnConfig.maxTurns - 1
    ∧ (startObserverMode twoTurnConfig capitalQuitEnv 2 World.init).1.w.trace
        = [Event.sendMessage Agent.AI1 "You may begin when ready.",
           Event.response "(AI1) gemini-2.5-flash" "hello",
           Event.ask] := by
  refine ⟨?_, by decide, by decide, by decide, by decide⟩
  intro i
  show "QUIT" ≠ "quit"
  decide

/-! ## Unlimited turns -/

/-- C2 (as amended): with `max_turns = 0`, if none of the operator's first
`k` answers lower-cases to `quit` then the Observer loop and the
Cooperative-Exploration loop are still running after `k` rounds, and with any
larger fuel they run at least `k` rounds.  A loop that returns does so at an
answer that lower-cases to `quit`, after one round for each earlier answer. -/
theorem unlimited_turns (cfg : Config) (env : Env) (w : World) (file : UploadedFile)
    (k fuel : Nat) (h0 : cfg.maxTurns = 0) (hk : k ≤ fuel) :
    ((∀ i, i < k → toLowerCase (env.inputs (w.asks + i)) ≠ "quit") →
        (startObserverMode cfg env k w).2 = Completion.outOfFuel
        ∧ (startObserverMode cfg env k w).1.currentTurn = k
        ∧ k ≤ (startObserverMode cfg env fuel w).1.currentTurn
        ∧ (coopLoop cfg env k (coopOpening cfg env file w)).2 = Completion.outOfFuel
        ∧ (coopLoop cfg env k (coopOpening cfg env file w)).1.currentTurn = k
        ∧ k ≤ (coopLoop cfg env fuel (coopOpening cfg env file w)).1.currentTurn)
    ∧ ((startObserverMode cfg env fuel w).2 = Completion.returned →
        ∃ i, toLowerCase (env.inputs (w.asks + i)) = "quit"
          ∧ (∀ j, j < i → toLowerCase (env.inputs (w.asks + j)) ≠ "quit")
          ∧ (startObserverMode cfg env fuel w).1.currentTurn = i)
    ∧ ((coopLoop cfg env fuel (coopOpening cfg env file w)).2 = Completion.returned →
        ∃ i, toLowerCase (env.inputs (w.asks + i)) = "quit"
          ∧ (∀ j, j < i → toLowerCase (env.inputs (w.asks + j)) ≠ "quit")
          ∧ (coopLoop cfg env fuel (coopOpening cfg env file w)).1.currentTurn = i) := by
  refine ⟨?_, ?_, ?_⟩
  · intro hq
    have ho := observerLoop_still_running cfg env k (observerOpening cfg env w) (Or.inl h0)
      (by intro i hi; rw [observerOpening_asks]; exact hq i hi)
    have ho2 := observerLoop_runs cfg env k fuel (observerOpening cfg env w) hk (Or.inl h0)
      (by intro i hi; rw [observerOpening_asks]; exact hq i hi)
    have hc := coopLoop_still_running cfg env k (coopOpening cfg env file w) (Or.inl h0)
      (by intro i hi; rw [coopOpening_asks]; exact hq i hi)
    have hc2 := coopLoop_runs cfg env k fuel (coopOpening cfg env file w) hk (Or.inl h0)
      (by intro i hi; rw [coopOpening_asks]; exact hq i hi)
    have h1 : (observerOpening cfg env w).currentTurn = 0 := rfl
    have h2 : (coopOpening cfg env file w).currentTurn = 0 := rfl
    rw [h1] at ho ho2
    rw [h2] at hc hc2
    simp only [startObserverMode]
    exact ⟨ho.1, by omega, by omega, hc.1, by omega, by omega⟩
  · intro hr
    obtain ⟨i, hi, hlt, ht⟩ :=
      observerLoop_returned_unlimited cfg env h0 fuel (observerOpening cfg env w) hr
    rw [observerOpening_asks] at hi hlt
    have h1 : (observerOpening cfg env w).currentTurn = 0 := rfl
    exact ⟨i, hi, hlt, by simp only [startObserverMode]; omega⟩
  · intro hr
    obtain ⟨i, hi, hlt, ht⟩ :=
      coopLoop_returned_unlimited cfg env h0 fuel (coopOpening cfg env file w) hr
    rw [coopOpening_asks] at hi hlt
    have h1 : (coopOpening cfg env file w).currentTurn = 0 := rfl
    exact ⟨i, hi, hlt, by omega⟩

/-- C2 (witness): no cap and an operator who only presses Enter: after
three rounds both loops are still running. -/
theorem unlimited_turns_witness :
    unlimitedConfig.maxTurns = 0 ∧ 3 ≤ 5
    ∧ (startObserverMode unlimitedConfig enterEnv 3 World.init).2 = Completion.outOfFuel
    ∧ (startObserverMode unlimitedConfig enterEnv 3 World.init).1.currentTurn = 3
    ∧ 3 ≤ (startObserverMode unlimitedConfig enterEnv 5 World.init).1.currentTurn :=
  have h := (unlimited_turns unlimitedConfig enterEnv World.init sampleFile 3 5 rfl
    (by decide)).1 (by intro i _; show toLowerCase "" ≠ "quit"; decide)
  ⟨rfl, by decide, h.1, h.2.1, h.2.2.1⟩

/-- C2 (counterexample): no cap, and the operator's first answer is not the
string `quit` but `QUIT`; the loop returns at once, so fewer than one round is
run. -/
theorem unlimited_turns_capital_quit :
    unlimitedConfig.maxTurns = 0
    ∧ capitalQuitEnv.inputs 0 ≠ "quit"
    ∧ (startObserverMode unlimitedConfig capitalQuitEnv 5 World.init).2 = Completion.returned
    ∧ (startObserverMode unlimitedConfig capitalQuitEnv 5 World.init).1.currentTurn = 0
    ∧ ¬ (1 ≤ (startObserverMode unlimitedConfig capitalQuitEnv 5 World.init).1.currentTurn) := by
  decide

/-! ## Growth of the shared history -/

/-- C4 (as amended): in Cooperative-Exploration mode, once the file is
uploaded, the shared history holds four entries when the first round begins,
and after `k` rounds that the cap allows and in which the operator does not
quit it holds `4 + 3 * k` entries: every round pushes one `user` entry and
the two replies. -/
theorem coop_history_growth (cfg : Config) (env : Env) (w : World) (file : UploadedFile)
    (k : Nat)
    (hpath : trim (env.inputs w.asks) ≠ "")
    (hup : env.upload (env.inputs w.asks) (env.inputs (w.asks + 1)) = Except.ok file)
    (hcap : cfg.maxTurns = 0 ∨ k ≤ cfg.maxTurns - 1)
    (hq : ∀ i, i < k → toLowerCase (env.inputs (w.asks + 2 + i)) ≠ "quit") :
    (startCooperativeExplorationMode cfg env 0 w).1.conversationHistory.length = 4
    ∧ (startCooperativeExplorationMode cfg env k w).1.currentTurn = k
    ∧ (startCooperativeExplorationMode cfg env k w).1.conversationHistory.length
        = (startCooperativeExplorationMode cfg env 0 w).1.conversationHistory.length + 3 * k := by
  rw [startCooperativeExplorationMode_enters cfg env w file k hpath hup,
    startCooperativeExplorationMode_enters cfg env w file 0 hpath hup]
  have h0 : ∀ w3, (coopOpening cfg env file w3).currentTurn = 0 := fun _ => rfl
  have hrun := coopLoop_still_running cfg env k
    (coopOpening cfg env file
      { w with asks := w.asks + 2,
               trace := w.trace ++ [Event.ask, Event.ask,
                 Event.upload (env.inputs w.asks) (env.inputs (w.asks + 1))] })
    (by rw [h0]; omega)
    (by intro i hi; rw [coopOpening_asks]; exact hq i hi)
  have hlen := coopLoop_history_length cfg env k
    (coopOpening cfg env file
      { w with asks := w.asks + 2,
               trace := w.trace ++ [Event.ask, Event.ask,
                 Event.upload (env.inputs w.asks) (env.inputs (w.asks + 1))] })
    (by rw [h0]; omega)
    (by intro i hi; rw [coopOpening_asks]; exact hq i hi)
  rw [h0] at hrun
  refine ⟨?_, by omega, ?_⟩
  · simp only [coopLoop]
    exact coopOpening_history_length cfg env file _
  · rw [hlen]
    simp only [coopLoop]

/-- C4 (witness): no cap, a named file, then Enter twice: the history
holds four entries at the first round and ten after two rounds. -/
theorem coop_history_growth_witness :
    (startCooperativeExplorationMode unlimitedConfig quietEnv 0 World.init).1.conversationHistory.length = 4
    ∧ (startCooperativeExplorationMode unlimitedConfig quietEnv 2 World.init).1.conversationHistory.length = 10 :=
  have h := coop_history_growth unlimitedConfig quietEnv World.init
    { uri := "files/abc", mimeType := "text/plain" } 2 (by decide) rfl
    (Or.inl rfl)
    (by
      intro i _
      have hi : quietEnv.inputs (World.init.asks + 2 + i) = "" := by
        have h1 : ¬ (World.init.asks + 2 + i = 0) := by omega
        have h2 : ¬ (World.init.asks + 2 + i = 1) := by omega
        simp only [quietEnv, h1, h2, if_false]
      rw [hi]
      decide)
  ⟨h.1, h.2.2.trans (by rw [h.1])⟩

/-- C4 (counterexample): after one round without a quit the history has
grown from four entries to seven, not to six. -/
theorem coop_history_grows_by_three :
    toLowerCase (quietEnv.inputs 2) ≠ "quit"
    ∧ (startCooperativeExplorationMode unlimitedConfig quietEnv 0 World.init).1.conversationHistory.length = 4
    ∧ (startCooperativeExplorationMode unlimitedConfig quietEnv 1 World.init).1.currentTurn = 1
    ∧ (startCooperativeExplorationMode unlimitedConfig quietEnv 1 World.init).1.conversationHistory.length = 7
    ∧ (startCooperativeExplorationMode unlimitedConfig quietEnv 1 World.init).1.conversationHistory.length ≠ 4 + 2 * 1 := by
  decide

/-! ## Observer routing -/

/-- C8: take the Observer loop after any number `j` of completed rounds, in
state `s`, and let one more round run.  Then `s.lastMessage` is Agent A's
most recent reply; session B is sent the operator's answer when that answer is
not blank and Agent A's most recent reply otherwise; and session A is sent
exactly the reply B gave in this round.  Nothing else is sent. -/
theorem observer_round_routing (cfg : Config) (env : Env) (w0 : World) (j : Nat)
    (s : LoopState)
    (h : startObserverMode cfg env j w0 = (s, Completion.outOfFuel))
    (hg : cfg.maxTurns = 0 ∨ s.currentTurn < cfg.maxTurns - 1)
    (hq : toLowerCase (env.inputs s.w.asks) ≠ "quit") :
    lastReplyOf (ai1_name cfg) s.w.trace = some s.lastMessage
    ∧ (startObserverMode cfg env (j + 1) w0).1.w.trace = s.w.trace ++
        [Event.ask,
         Event.delay cfg.delayMs,
         Event.sendMessage Agent.AI2
           (if trim (env.inputs s.w.asks) ≠ "" then env.inputs s.w.asks else s.lastMessage),
         Event.response (ai2_name cfg) (settleResponse (env.respond s.w.calls)),
         Event.delay cfg.delayMs,
         Event.sendMessage Agent.AI1 (settleResponse (env.respond s.w.calls)),
         Event.response (ai1_name cfg) (settleResponse (env.respond (s.w.calls + 1)))]
    ∧ (startObserverMode cfg env (j + 1) w0).1.lastMessage
        = settleResponse (env.respond (s.w.calls + 1)) := by
  unfold startObserverMode at h ⊢
  refine ⟨observerLoop_lastReply cfg env j _ s h (observerOpening_lastReply cfg env w0), ?_, ?_⟩
  · rw [observerLoop_succ_of_outOfFuel cfg env j _ s h, observerLoop_step cfg env 0 s hg hq]
    simp only [observerLoop, observerRound_trace]
    simp [askQuestion]
  · rw [observerLoop_succ_of_outOfFuel cfg env j _ s h, observerLoop_step cfg env 0 s hg hq]
    simp only [observerLoop, observerRound_lastMessage]
    simp [askQuestion]

/-- C8 (witness): the second round of an operator who only presses Enter:
B is sent A's reply of the first round and A is sent B's reply. -/
theorem observer_round_routing_witness :
    (startObserverMode unlimitedConfig enterEnv 2 World.init).1.w.trace
      = (startObserverMode unlimitedConfig enterEnv 1 World.init).1.w.trace ++
        [Event.ask,
         Event.delay 1000,
         Event.sendMessage Agent.AI2 "hello",
         Event.response "(AI2) gemini-2.5-pro" "hello",
         Event.delay 1000,
         Event.sendMessage Agent.AI1 "hello",
         Event.response "(AI1) gemini-2.5-flash" "hello"] :=
  ((observer_round_routing unlimitedConfig enterEnv World.init 1
    (startObserverMode unlimitedConfig enterEnv 1 World.init).1
    (by decide) (Or.inl rfl) (by decide)).2.1).trans (by decide)

/-! ## Pacing -/

/-- C9 (as amended): in an Observer run and in the Cooperative-Exploration
loop, the trace after Agent A's opening call and its reply has a delay of
`delay_ms` immediately before every agent call. -/
theorem loop_calls_paced (cfg : Config) (env : Env) (w : World) (file : UploadedFile)
    (fuel : Nat) :
    (∃ rest, (startObserverMode cfg env fuel w).1.w.trace = w.trace ++
        [Event.sendMessage Agent.AI1 "You may begin when ready.",
         Event.response (ai1_name cfg) (settleResponse (env.respond w.calls))] ++ rest
      ∧ ∀ prev, pacedFrom cfg.delayMs prev rest = true)
    ∧ (∃ rest, (coopLoop cfg env fuel (coopOpening cfg env file w)).1.w.trace = w.trace ++
        [Event.generateContent cfg.modelAI1
           (buildHistory PROMPTS.shared ++ [{ role := "user", parts := initialPromptParts file }]),
         Event.response (ai1_name cfg) (settleResponse (env.respond w.calls))] ++ rest
      ∧ ∀ prev, pacedFrom cfg.delayMs prev rest = true) := by
  constructor
  · obtain ⟨rest, hr, hp⟩ := observerLoop_paced cfg env fuel (observerOpening cfg env w)
    rw [observerOpening_trace] at hr
    exact ⟨rest, hr, hp⟩
  · obtain ⟨rest, hr, hp⟩ := coopLoop_paced cfg env fuel (coopOpening cfg env file w)
    rw [coopOpening_trace] at hr
    exact ⟨rest, hr, hp⟩

/-- C9 (counterexample): the opening call of an Observer run is the first
event of the trace, with no delay before it; and a Chat-Room round issues four
agent calls and no delay at all. -/
theorem opening_and_chatRoom_calls_unpaced :
    (startObserverMode oneTurnConfig enterEnv 1 World.init).1.w.trace
        = [Event.sendMessage Agent.AI1 "You may begin when ready.",
           Event.response "(AI1) gemini-2.5-flash" "hello"]
    ∧ pacedCalls oneTurnConfig.delayMs
        (startObserverMode oneTurnConfig enterEnv 1 World.init).1.w.trace = false
    ∧ pacedCalls CONFIG.delayMs (chatRoomLoop CONFIG syncFailEnv 1 World.init).1.trace = false
    ∧ Event.delay CONFIG.delayMs ∉ (chatRoomLoop CONFIG syncFailEnv 1 World.init).1.trace := by
  decide

end AiConvo
